import Mathlib

/-!
Verification of the goodreads-viz pipeline scripts against their
natural-language specification.  Each numbered script of `scripts/` that the
claims touch is shallowly embedded below: numpy arrays become lists, machine
integers become `Nat`/`Int` with explicit `% 2^w` where the code masks or
casts, fallible code returns `Except`, and the pandas/dict operations are
spelled out as executable Lean functions.
-/

namespace GV

/-! ### 14_make_search_index.py : FNV-1a hashing and trigram extraction -/

/-- One byte step of `fnv1a32_bytes`: `h ^= b; h = (h * 16777619) & 0xFFFFFFFF`. -/
def fnv1a32_step (h b : Nat) : Nat := ((h ^^^ b) * 16777619) % 4294967296

/-- `fnv1a32_bytes` from `scripts/14_make_search_index.py`: 32-bit FNV-1a over a
byte string, seed `2166136261`, multiplier `16777619`, masked to 32 bits after
each step. -/
def fnv1a32_bytes (bs : List Nat) : Nat := bs.foldl fnv1a32_step 2166136261

/-- UTF-8 encoding of one Unicode codepoint, as produced by Python
`str.encode("utf-8")` (1 to 4 bytes). -/
def utf8Bytes (c : Nat) : List Nat :=
  if c < 128 then [c]
  else if c < 2048 then [192 + c / 64, 128 + c % 64]
  else if c < 65536 then [224 + c / 4096, 128 + c / 64 % 64, 128 + c % 64]
  else [240 + c / 262144, 128 + c / 4096 % 64, 128 + c / 64 % 64, 128 + c % 64]

/-- UTF-8 encoding of a character string. -/
def encodeUtf8 (s : List Char) : List Nat := (s.map (fun c => utf8Bytes c.toNat)).flatten

/-- First-match lookup in a keyed row list (the row a pandas join would see for
a given id once ids are unique; on a raw list it returns the first occurrence). -/
def lookupId {κ ρ : Type} [DecidableEq κ] (k : κ) : List (κ × ρ) → Option ρ
  | [] => none
  | r :: rest => if r.1 = k then some r.2 else lookupId k rest

/-- The exact whitespace alphabet of CPython: the 29 codepoints for which
`str.isspace()` holds, which is also precisely the set the regex `\s` matches
on `str` patterns (both are `Py_UNICODE_ISSPACE`): ASCII `\t\n\v\f\r`, the
information separators U+001C-U+001F, space, NEL U+0085, NBSP U+00A0, and the
Unicode space separators. -/
def pySpaceCodes : List Nat :=
[
  9, 10, 11, 12, 13, 28, 29, 30, 31, 32, 133, 160, 5760, 8192, 8193,
  8194, 8195, 8196, 8197, 8198, 8199, 8200, 8201, 8202, 8232, 8233, 8239, 8287, 12288]

/-- Whitespace test used by both `re.sub(r"\s+", " ", s)` and `str.strip()`. -/
def isPySpace (c : Char) : Bool := pySpaceCodes.contains c.toNat

set_option maxHeartbeats 1000000 in
/-- Slice 1 of the CPython lowercase mapping table. -/
def pyLowerTable1 : List (Nat × List Nat) :=
[
  (65, [97]), (66, [98]), (67, [99]), (68, [100]), (69, [101]), (70, [102]),
  (71, [103]), (72, [104]), (73, [105]), (74, [106]), (75, [107]), (76, [108]),
  (77, [109]), (78, [110]), (79, [111]), (80, [112]), (81, [113]), (82, [114]),
  (83, [115]), (84, [116]), (85, [117]), (86, [118]), (87, [119]), (88, [120]),
  (89, [121]), (90, [122]), (192, [224]), (193, [225]), (194, [226]), (195, [227]),
  (196, [228]), (197, [229]), (198, [230]), (199, [231]), (200, [232]), (201, [233]),
  (202, [234]), (203, [235]), (204, [236]), (205, [237]), (206, [238]), (207, [239]),
  (208, [240]), (209, [241]), (210, [242]), (211, [243]), (212, [244]), (213, [245]),
  (214, [246]), (216, [248]), (217, [249]), (218, [250]), (219, [251]), (220, [252]),
  (221, [253]), (222, [254]), (256, [257]), (258, [259]), (260, [261]), (262, [263]),
  (264, [265]), (266, [267]), (268, [269]), (270, [271]), (272, [273]), (274, [275]),
  (276, [277]), (278, [279]), (280, [281]), (282, [283]), (284, [285]), (286, [287]),
  (288, [289]), (290, [291]), (292, [293]), (294, [295]), (296, [297]), (298, [299]),
  (300, [301]), (302, [303]), (304, [105, 775]), (306, [307]), (308, [309]), (310, [311]),
  (313, [314]), (315, [316]), (317, [318]), (319, [320]), (321, [322]), (323, [324]),
  (325, [326]), (327, [328]), (330, [331]), (332, [333]), (334, [335]), (336, [337]),
  (338, [339]), (340, [341]), (342, [343]), (344, [345]), (346, [347]), (348, [349]),
  (350, [351]), (352, [353]), (354, [355]), (356, [357]), (358, [359]), (360, [361]),
  (362, [363]), (364, [365]), (366, [367]), (368, [369]), (370, [371]), (372, [373]),
  (374, [375]), (376, [255]), (377, [378]), (379, [380]), (381, [382]), (385, [595]),
  (386, [387]), (388, [389]), (390, [596]), (391, [392]), (393, [598]), (394, [599]),
  (395, [396]), (398, [477]), (399, [601]), (400, [603]), (401, [402]), (403, [608]),
  (404, [611]), (406, [617]), (407, [616]), (408, [409]), (412, [623]), (413, [626]),
  (415, [629]), (416, [417]), (418, [419]), (420, [421]), (422, [640]), (423, [424]),
  (425, [643]), (428, [429]), (430, [648]), (431, [432]), (433, [650]), (434, [651]),
  (435, [436]), (437, [438]), (439, [658]), (440, [441]), (444, [445]), (452, [454]),
  (453, [454]), (455, [457]), (456, [457]), (458, [460]), (459, [460]), (461, [462]),
  (463, [464]), (465, [466]), (467, [468]), (469, [470]), (471, [472]), (473, [474]),
  (475, [476]), (478, [479]), (480, [481]), (482, [483]), (484, [485]), (486, [487]),
  (488, [489]), (490, [491]), (492, [493]), (494, [495]), (497, [499]), (498, [499])]

set_option maxHeartbeats 1000000 in
/-- Slice 2 of the CPython lowercase mapping table. -/
def pyLowerTable2 : List (Nat × List Nat) :=
[
  (500, [501]), (502, [405]), (503, [447]), (504, [505]), (506, [507]), (508, [509]),
  (510, [511]), (512, [513]), (514, [515]), (516, [517]), (518, [519]), (520, [521]),
  (522, [523]), (524, [525]), (526, [527]), (528, [529]), (530, [531]), (532, [533]),
  (534, [535]), (536, [537]), (538, [539]), (540, [541]), (542, [543]), (544, [414]),
  (546, [547]), (548, [549]), (550, [551]), (552, [553]), (554, [555]), (556, [557]),
  (558, [559]), (560, [561]), (562, [563]), (570, [11365]), (571, [572]), (573, [410]),
  (574, [11366]), (577, [578]), (579, [384]), (580, [649]), (581, [652]), (582, [583]),
  (584, [585]), (586, [587]), (588, [589]), (590, [591]), (880, [881]), (882, [883]),
  (886, [887]), (895, [1011]), (902, [940]), (904, [941]), (905, [942]), (906, [943]),
  (908, [972]), (910, [973]), (911, [974]), (913, [945]), (914, [946]), (915, [947]),
  (916, [948]), (917, [949]), (918, [950]), (919, [951]), (920, [952]), (921, [953]),
  (922, [954]), (923, [955]), (924, [956]), (925, [957]), (926, [958]), (927, [959]),
  (928, [960]), (929, [961]), (932, [964]), (933, [965]), (934, [966]), (935, [967]),
  (936, [968]), (937, [969]), (938, [970]), (939, [971]), (975, [983]), (984, [985]),
  (986, [987]), (988, [989]), (990, [991]), (992, [993]), (994, [995]), (996, [997]),
  (998, [999]), (1000, [1001]), (1002, [1003]), (1004, [1005]), (1006, [1007]), (1012, [952]),
  (1015, [1016]), (1017, [1010]), (1018, [1019]), (1021, [891]), (1022, [892]), (1023, [893]),
  (1024, [1104]), (1025, [1105]), (1026, [1106]), (1027, [1107]), (1028, [1108]), (1029, [1109]),
  (1030, [1110]), (1031, [1111]), (1032, [1112]), (1033, [1113]), (1034, [1114]), (1035, [1115]),
  (1036, [1116]), (1037, [1117]), (1038, [1118]), (1039, [1119]), (1040, [1072]), (1041, [1073]),
  (1042, [1074]), (1043, [1075]), (1044, [1076]), (1045, [1077]), (1046, [1078]), (1047, [1079]),
  (1048, [1080]), (1049, [1081]), (1050, [1082]), (1051, [1083]), (1052, [1084]), (1053, [1085]),
  (1054, [1086]), (1055, [1087]), (1056, [1088]), (1057, [1089]), (1058, [1090]), (1059, [1091]),
  (1060, [1092]), (1061, [1093]), (1062, [1094]), (1063, [1095]), (1064, [1096]), (1065, [1097]),
  (1066, [1098]), (1067, [1099]), (1068, [1100]), (1069, [1101]), (1070, [1102]), (1071, [1103]),
  (1120, [1121]), (1122, [1123]), (1124, [1125]), (1126, [1127]), (1128, [1129]), (1130, [1131]),
  (1132, [1133]), (1134, [1135]), (1136, [1137]), (1138, [1139]), (1140, [1141]), (1142, [1143]),
  (1144, [1145]), (1146, [1147]), (1148, [1149]), (1150, [1151]), (1152, [1153]), (1162, [1163]),
  (1164, [1165]), (1166, [1167]), (1168, [1169]), (1170, [1171]), (1172, [1173]), (1174, [1175]),
  (1176, [1177]), (1178, [1179]), (1180, [1181]), (1182, [1183]), (1184, [1185]), (1186, [1187])]

set_option maxHeartbeats 1000000 in
/-- Slice 3 of the CPython lowercase mapping table. -/
def pyLowerTable3 : List (Nat × List Nat) :=
[
  (1188, [1189]), (1190, [1191]), (1192, [1193]), (1194, [1195]), (1196, [1197]), (1198, [1199]),
  (1200, [1201]), (1202, [1203]), (1204, [1205]), (1206, [1207]), (1208, [1209]), (1210, [1211]),
  (1212, [1213]), (1214, [1215]), (1216, [1231]), (1217, [1218]), (1219, [1220]), (1221, [1222]),
  (1223, [1224]), (1225, [1226]), (1227, [1228]), (1229, [1230]), (1232, [1233]), (1234, [1235]),
  (1236, [1237]), (1238, [1239]), (1240, [1241]), (1242, [1243]), (1244, [1245]), (1246, [1247]),
  (1248, [1249]), (1250, [1251]), (1252, [1253]), (1254, [1255]), (1256, [1257]), (1258, [1259]),
  (1260, [1261]), (1262, [1263]), (1264, [1265]), (1266, [1267]), (1268, [1269]), (1270, [1271]),
  (1272, [1273]), (1274, [1275]), (1276, [1277]), (1278, [1279]), (1280, [1281]), (1282, [1283]),
  (1284, [1285]), (1286, [1287]), (1288, [1289]), (1290, [1291]), (1292, [1293]), (1294, [1295]),
  (1296, [1297]), (1298, [1299]), (1300, [1301]), (1302, [1303]), (1304, [1305]), (1306, [1307]),
  (1308, [1309]), (1310, [1311]), (1312, [1313]), (1314, [1315]), (1316, [1317]), (1318, [1319]),
  (1320, [1321]), (1322, [1323]), (1324, [1325]), (1326, [1327]), (1329, [1377]), (1330, [1378]),
  (1331, [1379]), (1332, [1380]), (1333, [1381]), (1334, [1382]), (1335, [1383]), (1336, [1384]),
  (1337, [1385]), (1338, [1386]), (1339, [1387]), (1340, [1388]), (1341, [1389]), (1342, [1390]),
  (1343, [1391]), (1344, [1392]), (1345, [1393]), (1346, [1394]), (1347, [1395]), (1348, [1396]),
  (1349, [1397]), (1350, [1398]), (1351, [1399]), (1352, [1400]), (1353, [1401]), (1354, [1402]),
  (1355, [1403]), (1356, [1404]), (1357, [1405]), (1358, [1406]), (1359, [1407]), (1360, [1408]),
  (1361, [1409]), (1362, [1410]), (1363, [1411]), (1364, [1412]), (1365, [1413]), (1366, [1414]),
  (4256, [11520]), (4257, [11521]), (4258, [11522]), (4259, [11523]), (4260, [11524]), (4261, [11525]),
  (4262, [11526]), (4263, [11527]), (4264, [11528]), (4265, [11529]), (4266, [11530]), (4267, [11531]),
  (4268, [11532]), (4269, [11533]), (4270, [11534]), (4271, [11535]), (4272, [11536]), (4273, [11537]),
  (4274, [11538]), (4275, [11539]), (4276, [11540]), (4277, [11541]), (4278, [11542]), (4279, [11543]),
  (4280, [11544]), (4281, [11545]), (4282, [11546]), (4283, [11547]), (4284, [11548]), (4285, [11549]),
  (4286, [11550]), (4287, [11551]), (4288, [11552]), (4289, [11553]), (4290, [11554]), (4291, [11555]),
  (4292, [11556]), (4293, [11557]), (4295, [11559]), (4301, [11565]), (5024, [43888]), (5025, [43889]),
  (5026, [43890]), (5027, [43891]), (5028, [43892]), (5029, [43893]), (5030, [43894]), (5031, [43895]),
  (5032, [43896]), (5033, [43897]), (5034, [43898]), (5035, [43899]), (5036, [43900]), (5037, [43901]),
  (5038, [43902]), (5039, [43903]), (5040, [43904]), (5041, [43905]), (5042, [43906]), (5043, [43907]),
  (5044, [43908]), (5045, [43909]), (5046, [43910]), (5047, [43911]), (5048, [43912]), (5049, [43913]),
  (5050, [43914]), (5051, [43915]), (5052, [43916]), (5053, [43917]), (5054, [43918]), (5055, [43919])]

set_option maxHeartbeats 1000000 in
/-- Slice 4 of the CPython lowercase mapping table. -/
def pyLowerTable4 : List (Nat × List Nat) :=
[
  (5056, [43920]), (5057, [43921]), (5058, [43922]), (5059, [43923]), (5060, [43924]), (5061, [43925]),
  (5062, [43926]), (5063, [43927]), (5064, [43928]), (5065, [43929]), (5066, [43930]), (5067, [43931]),
  (5068, [43932]), (5069, [43933]), (5070, [43934]), (5071, [43935]), (5072, [43936]), (5073, [43937]),
  (5074, [43938]), (5075, [43939]), (5076, [43940]), (5077, [43941]), (5078, [43942]), (5079, [43943]),
  (5080, [43944]), (5081, [43945]), (5082, [43946]), (5083, [43947]), (5084, [43948]), (5085, [43949]),
  (5086, [43950]), (5087, [43951]), (5088, [43952]), (5089, [43953]), (5090, [43954]), (5091, [43955]),
  (5092, [43956]), (5093, [43957]), (5094, [43958]), (5095, [43959]), (5096, [43960]), (5097, [43961]),
  (5098, [43962]), (5099, [43963]), (5100, [43964]), (5101, [43965]), (5102, [43966]), (5103, [43967]),
  (5104, [5112]), (5105, [5113]), (5106, [5114]), (5107, [5115]), (5108, [5116]), (5109, [5117]),
  (7312, [4304]), (7313, [4305]), (7314, [4306]), (7315, [4307]), (7316, [4308]), (7317, [4309]),
  (7318, [4310]), (7319, [4311]), (7320, [4312]), (7321, [4313]), (7322, [4314]), (7323, [4315]),
  (7324, [4316]), (7325, [4317]), (7326, [4318]), (7327, [4319]), (7328, [4320]), (7329, [4321]),
  (7330, [4322]), (7331, [4323]), (7332, [4324]), (7333, [4325]), (7334, [4326]), (7335, [4327]),
  (7336, [4328]), (7337, [4329]), (7338, [4330]), (7339, [4331]), (7340, [4332]), (7341, [4333]),
  (7342, [4334]), (7343, [4335]), (7344, [4336]), (7345, [4337]), (7346, [4338]), (7347, [4339]),
  (7348, [4340]), (7349, [4341]), (7350, [4342]), (7351, [4343]), (7352, [4344]), (7353, [4345]),
  (7354, [4346]), (7357, [4349]), (7358, [4350]), (7359, [4351]), (7680, [7681]), (7682, [7683]),
  (7684, [7685]), (7686, [7687]), (7688, [7689]), (7690, [7691]), (7692, [7693]), (7694, [7695]),
  (7696, [7697]), (7698, [7699]), (7700, [7701]), (7702, [7703]), (7704, [7705]), (7706, [7707]),
  (7708, [7709]), (7710, [7711]), (7712, [7713]), (7714, [7715]), (7716, [7717]), (7718, [7719]),
  (7720, [7721]), (7722, [7723]), (7724, [7725]), (7726, [7727]), (7728, [7729]), (7730, [7731]),
  (7732, [7733]), (7734, [7735]), (7736, [7737]), (7738, [7739]), (7740, [7741]), (7742, [7743]),
  (7744, [7745]), (7746, [7747]), (7748, [7749]), (7750, [7751]), (7752, [7753]), (7754, [7755]),
  (7756, [7757]), (7758, [7759]), (7760, [7761]), (7762, [7763]), (7764, [7765]), (7766, [7767]),
  (7768, [7769]), (7770, [7771]), (7772, [7773]), (7774, [7775]), (7776, [7777]), (7778, [7779]),
  (7780, [7781]), (7782, [7783]), (7784, [7785]), (7786, [7787]), (7788, [7789]), (7790, [7791]),
  (7792, [7793]), (7794, [7795]), (7796, [7797]), (7798, [7799]), (7800, [7801]), (7802, [7803]),
  (7804, [7805]), (7806, [7807]), (7808, [7809]), (7810, [7811]), (7812, [7813]), (7814, [7815]),
  (7816, [7817]), (7818, [7819]), (7820, [7821]), (7822, [7823]), (7824, [7825]), (7826, [7827]),
  (7828, [7829]), (7838, [223]), (7840, [7841]), (7842, [7843]), (7844, [7845]), (7846, [7847])]

set_option maxHeartbeats 1000000 in
/-- Slice 5 of the CPython lowercase mapping table. -/
def pyLowerTable5 : List (Nat × List Nat) :=
[
  (7848, [7849]), (7850, [7851]), (7852, [7853]), (7854, [7855]), (7856, [7857]), (7858, [7859]),
  (7860, [7861]), (7862, [7863]), (7864, [7865]), (7866, [7867]), (7868, [7869]), (7870, [7871]),
  (7872, [7873]), (7874, [7875]), (7876, [7877]), (7878, [7879]), (7880, [7881]), (7882, [7883]),
  (7884, [7885]), (7886, [7887]), (7888, [7889]), (7890, [7891]), (7892, [7893]), (7894, [7895]),
  (7896, [7897]), (7898, [7899]), (7900, [7901]), (7902, [7903]), (7904, [7905]), (7906, [7907]),
  (7908, [7909]), (7910, [7911]), (7912, [7913]), (7914, [7915]), (7916, [7917]), (7918, [7919]),
  (7920, [7921]), (7922, [7923]), (7924, [7925]), (7926, [7927]), (7928, [7929]), (7930, [7931]),
  (7932, [7933]), (7934, [7935]), (7944, [7936]), (7945, [7937]), (7946, [7938]), (7947, [7939]),
  (7948, [7940]), (7949, [7941]), (7950, [7942]), (7951, [7943]), (7960, [7952]), (7961, [7953]),
  (7962, [7954]), (7963, [7955]), (7964, [7956]), (7965, [7957]), (7976, [7968]), (7977, [7969]),
  (7978, [7970]), (7979, [7971]), (7980, [7972]), (7981, [7973]), (7982, [7974]), (7983, [7975]),
  (7992, [7984]), (7993, [7985]), (7994, [7986]), (7995, [7987]), (7996, [7988]), (7997, [7989]),
  (7998, [7990]), (7999, [7991]), (8008, [8000]), (8009, [8001]), (8010, [8002]), (8011, [8003]),
  (8012, [8004]), (8013, [8005]), (8025, [8017]), (8027, [8019]), (8029, [8021]), (8031, [8023]),
  (8040, [8032]), (8041, [8033]), (8042, [8034]), (8043, [8035]), (8044, [8036]), (8045, [8037]),
  (8046, [8038]), (8047, [8039]), (8072, [8064]), (8073, [8065]), (8074, [8066]), (8075, [8067]),
  (8076, [8068]), (8077, [8069]), (8078, [8070]), (8079, [8071]), (8088, [8080]), (8089, [8081]),
  (8090, [8082]), (8091, [8083]), (8092, [8084]), (8093, [8085]), (8094, [8086]), (8095, [8087]),
  (8104, [8096]), (8105, [8097]), (8106, [8098]), (8107, [8099]), (8108, [8100]), (8109, [8101]),
  (8110, [8102]), (8111, [8103]), (8120, [8112]), (8121, [8113]), (8122, [8048]), (8123, [8049]),
  (8124, [8115]), (8136, [8050]), (8137, [8051]), (8138, [8052]), (8139, [8053]), (8140, [8131]),
  (8152, [8144]), (8153, [8145]), (8154, [8054]), (8155, [8055]), (8168, [8160]), (8169, [8161]),
  (8170, [8058]), (8171, [8059]), (8172, [8165]), (8184, [8056]), (8185, [8057]), (8186, [8060]),
  (8187, [8061]), (8188, [8179]), (8486, [969]), (8490, [107]), (8491, [229]), (8498, [8526]),
  (8544, [8560]), (8545, [8561]), (8546, [8562]), (8547, [8563]), (8548, [8564]), (8549, [8565]),
  (8550, [8566]), (8551, [8567]), (8552, [8568]), (8553, [8569]), (8554, [8570]), (8555, [8571]),
  (8556, [8572]), (8557, [8573]), (8558, [8574]), (8559, [8575]), (8579, [8580]), (9398, [9424]),
  (9399, [9425]), (9400, [9426]), (9401, [9427]), (9402, [9428]), (9403, [9429]), (9404, [9430]),
  (9405, [9431]), (9406, [9432]), (9407, [9433]), (9408, [9434]), (9409, [9435]), (9410, [9436]),
  (9411, [9437]), (9412, [9438]), (9413, [9439]), (9414, [9440]), (9415, [9441]), (9416, [9442])]

set_option maxHeartbeats 1000000 in
/-- Slice 6 of the CPython lowercase mapping table. -/
def pyLowerTable6 : List (Nat × List Nat) :=
[
  (9417, [9443]), (9418, [9444]), (9419, [9445]), (9420, [9446]), (9421, [9447]), (9422, [9448]),
  (9423, [9449]), (11264, [11312]), (11265, [11313]), (11266, [11314]), (11267, [11315]), (11268, [11316]),
  (11269, [11317]), (11270, [11318]), (11271, [11319]), (11272, [11320]), (11273, [11321]), (11274, [11322]),
  (11275, [11323]), (11276, [11324]), (11277, [11325]), (11278, [11326]), (11279, [11327]), (11280, [11328]),
  (11281, [11329]), (11282, [11330]), (11283, [11331]), (11284, [11332]), (11285, [11333]), (11286, [11334]),
  (11287, [11335]), (11288, [11336]), (11289, [11337]), (11290, [11338]), (11291, [11339]), (11292, [11340]),
  (11293, [11341]), (11294, [11342]), (11295, [11343]), (11296, [11344]), (11297, [11345]), (11298, [11346]),
  (11299, [11347]), (11300, [11348]), (11301, [11349]), (11302, [11350]), (11303, [11351]), (11304, [11352]),
  (11305, [11353]), (11306, [11354]), (11307, [11355]), (11308, [11356]), (11309, [11357]), (11310, [11358]),
  (11311, [11359]), (11360, [11361]), (11362, [619]), (11363, [7549]), (11364, [637]), (11367, [11368]),
  (11369, [11370]), (11371, [11372]), (11373, [593]), (11374, [625]), (11375, [592]), (11376, [594]),
  (11378, [11379]), (11381, [11382]), (11390, [575]), (11391, [576]), (11392, [11393]), (11394, [11395]),
  (11396, [11397]), (11398, [11399]), (11400, [11401]), (11402, [11403]), (11404, [11405]), (11406, [11407]),
  (11408, [11409]), (11410, [11411]), (11412, [11413]), (11414, [11415]), (11416, [11417]), (11418, [11419]),
  (11420, [11421]), (11422, [11423]), (11424, [11425]), (11426, [11427]), (11428, [11429]), (11430, [11431]),
  (11432, [11433]), (11434, [11435]), (11436, [11437]), (11438, [11439]), (11440, [11441]), (11442, [11443]),
  (11444, [11445]), (11446, [11447]), (11448, [11449]), (11450, [11451]), (11452, [11453]), (11454, [11455]),
  (11456, [11457]), (11458, [11459]), (11460, [11461]), (11462, [11463]), (11464, [11465]), (11466, [11467]),
  (11468, [11469]), (11470, [11471]), (11472, [11473]), (11474, [11475]), (11476, [11477]), (11478, [11479]),
  (11480, [11481]), (11482, [11483]), (11484, [11485]), (11486, [11487]), (11488, [11489]), (11490, [11491]),
  (11499, [11500]), (11501, [11502]), (11506, [11507]), (42560, [42561]), (42562, [42563]), (42564, [42565]),
  (42566, [42567]), (42568, [42569]), (42570, [42571]), (42572, [42573]), (42574, [42575]), (42576, [42577]),
  (42578, [42579]), (42580, [42581]), (42582, [42583]), (42584, [42585]), (42586, [42587]), (42588, [42589]),
  (42590, [42591]), (42592, [42593]), (42594, [42595]), (42596, [42597]), (42598, [42599]), (42600, [42601]),
  (42602, [42603]), (42604, [42605]), (42624, [42625]), (42626, [42627]), (42628, [42629]), (42630, [42631]),
  (42632, [42633]), (42634, [42635]), (42636, [42637]), (42638, [42639]), (42640, [42641]), (42642, [42643]),
  (42644, [42645]), (42646, [42647]), (42648, [42649]), (42650, [42651]), (42786, [42787]), (42788, [42789]),
  (42790, [42791]), (42792, [42793]), (42794, [42795]), (42796, [42797]), (42798, [42799]), (42802, [42803]),
  (42804, [42805]), (42806, [42807]), (42808, [42809]), (42810, [42811]), (42812, [42813]), (42814, [42815]),
  (42816, [42817]), (42818, [42819]), (42820, [42821]), (42822, [42823]), (42824, [42825]), (42826, [42827])]

set_option maxHeartbeats 1000000 in
/-- Slice 7 of the CPython lowercase mapping table. -/
def pyLowerTable7 : List (Nat × List Nat) :=
[
  (42828, [42829]), (42830, [42831]), (42832, [42833]), (42834, [42835]), (42836, [42837]), (42838, [42839]),
  (42840, [42841]), (42842, [42843]), (42844, [42845]), (42846, [42847]), (42848, [42849]), (42850, [42851]),
  (42852, [42853]), (42854, [42855]), (42856, [42857]), (42858, [42859]), (42860, [42861]), (42862, [42863]),
  (42873, [42874]), (42875, [42876]), (42877, [7545]), (42878, [42879]), (42880, [42881]), (42882, [42883]),
  (42884, [42885]), (42886, [42887]), (42891, [42892]), (42893, [613]), (42896, [42897]), (42898, [42899]),
  (42902, [42903]), (42904, [42905]), (42906, [42907]), (42908, [42909]), (42910, [42911]), (42912, [42913]),
  (42914, [42915]), (42916, [42917]), (42918, [42919]), (42920, [42921]), (42922, [614]), (42923, [604]),
  (42924, [609]), (42925, [620]), (42926, [618]), (42928, [670]), (42929, [647]), (42930, [669]),
  (42931, [43859]), (42932, [42933]), (42934, [42935]), (42936, [42937]), (42938, [42939]), (42940, [42941]),
  (42942, [42943]), (42944, [42945]), (42946, [42947]), (42948, [42900]), (42949, [642]), (42950, [7566]),
  (42951, [42952]), (42953, [42954]), (42960, [42961]), (42966, [42967]), (42968, [42969]), (42997, [42998]),
  (65313, [65345]), (65314, [65346]), (65315, [65347]), (65316, [65348]), (65317, [65349]), (65318, [65350]),
  (65319, [65351]), (65320, [65352]), (65321, [65353]), (65322, [65354]), (65323, [65355]), (65324, [65356]),
  (65325, [65357]), (65326, [65358]), (65327, [65359]), (65328, [65360]), (65329, [65361]), (65330, [65362]),
  (65331, [65363]), (65332, [65364]), (65333, [65365]), (65334, [65366]), (65335, [65367]), (65336, [65368]),
  (65337, [65369]), (65338, [65370]), (66560, [66600]), (66561, [66601]), (66562, [66602]), (66563, [66603]),
  (66564, [66604]), (66565, [66605]), (66566, [66606]), (66567, [66607]), (66568, [66608]), (66569, [66609]),
  (66570, [66610]), (66571, [66611]), (66572, [66612]), (66573, [66613]), (66574, [66614]), (66575, [66615]),
  (66576, [66616]), (66577, [66617]), (66578, [66618]), (66579, [66619]), (66580, [66620]), (66581, [66621]),
  (66582, [66622]), (66583, [66623]), (66584, [66624]), (66585, [66625]), (66586, [66626]), (66587, [66627]),
  (66588, [66628]), (66589, [66629]), (66590, [66630]), (66591, [66631]), (66592, [66632]), (66593, [66633]),
  (66594, [66634]), (66595, [66635]), (66596, [66636]), (66597, [66637]), (66598, [66638]), (66599, [66639]),
  (66736, [66776]), (66737, [66777]), (66738, [66778]), (66739, [66779]), (66740, [66780]), (66741, [66781]),
  (66742, [66782]), (66743, [66783]), (66744, [66784]), (66745, [66785]), (66746, [66786]), (66747, [66787]),
  (66748, [66788]), (66749, [66789]), (66750, [66790]), (66751, [66791]), (66752, [66792]), (66753, [66793]),
  (66754, [66794]), (66755, [66795]), (66756, [66796]), (66757, [66797]), (66758, [66798]), (66759, [66799]),
  (66760, [66800]), (66761, [66801]), (66762, [66802]), (66763, [66803]), (66764, [66804]), (66765, [66805]),
  (66766, [66806]), (66767, [66807]), (66768, [66808]), (66769, [66809]), (66770, [66810]), (66771, [66811]),
  (66928, [66967]), (66929, [66968]), (66930, [66969]), (66931, [66970]), (66932, [66971]), (66933, [66972]),
  (66934, [66973]), (66935, [66974]), (66936, [66975]), (66937, [66976]), (66938, [66977]), (66940, [66979])]

set_option maxHeartbeats 1000000 in
/-- Slice 8 of the CPython lowercase mapping table. -/
def pyLowerTable8 : List (Nat × List Nat) :=
[
  (66941, [66980]), (66942, [66981]), (66943, [66982]), (66944, [66983]), (66945, [66984]), (66946, [66985]),
  (66947, [66986]), (66948, [66987]), (66949, [66988]), (66950, [66989]), (66951, [66990]), (66952, [66991]),
  (66953, [66992]), (66954, [66993]), (66956, [66995]), (66957, [66996]), (66958, [66997]), (66959, [66998]),
  (66960, [66999]), (66961, [67000]), (66962, [67001]), (66964, [67003]), (66965, [67004]), (68736, [68800]),
  (68737, [68801]), (68738, [68802]), (68739, [68803]), (68740, [68804]), (68741, [68805]), (68742, [68806]),
  (68743, [68807]), (68744, [68808]), (68745, [68809]), (68746, [68810]), (68747, [68811]), (68748, [68812]),
  (68749, [68813]), (68750, [68814]), (68751, [68815]), (68752, [68816]), (68753, [68817]), (68754, [68818]),
  (68755, [68819]), (68756, [68820]), (68757, [68821]), (68758, [68822]), (68759, [68823]), (68760, [68824]),
  (68761, [68825]), (68762, [68826]), (68763, [68827]), (68764, [68828]), (68765, [68829]), (68766, [68830]),
  (68767, [68831]), (68768, [68832]), (68769, [68833]), (68770, [68834]), (68771, [68835]), (68772, [68836]),
  (68773, [68837]), (68774, [68838]), (68775, [68839]), (68776, [68840]), (68777, [68841]), (68778, [68842]),
  (68779, [68843]), (68780, [68844]), (68781, [68845]), (68782, [68846]), (68783, [68847]), (68784, [68848]),
  (68785, [68849]), (68786, [68850]), (71840, [71872]), (71841, [71873]), (71842, [71874]), (71843, [71875]),
  (71844, [71876]), (71845, [71877]), (71846, [71878]), (71847, [71879]), (71848, [71880]), (71849, [71881]),
  (71850, [71882]), (71851, [71883]), (71852, [71884]), (71853, [71885]), (71854, [71886]), (71855, [71887]),
  (71856, [71888]), (71857, [71889]), (71858, [71890]), (71859, [71891]), (71860, [71892]), (71861, [71893]),
  (71862, [71894]), (71863, [71895]), (71864, [71896]), (71865, [71897]), (71866, [71898]), (71867, [71899]),
  (71868, [71900]), (71869, [71901]), (71870, [71902]), (71871, [71903]), (93760, [93792]), (93761, [93793]),
  (93762, [93794]), (93763, [93795]), (93764, [93796]), (93765, [93797]), (93766, [93798]), (93767, [93799]),
  (93768, [93800]), (93769, [93801]), (93770, [93802]), (93771, [93803]), (93772, [93804]), (93773, [93805]),
  (93774, [93806]), (93775, [93807]), (93776, [93808]), (93777, [93809]), (93778, [93810]), (93779, [93811]),
  (93780, [93812]), (93781, [93813]), (93782, [93814]), (93783, [93815]), (93784, [93816]), (93785, [93817]),
  (93786, [93818]), (93787, [93819]), (93788, [93820]), (93789, [93821]), (93790, [93822]), (93791, [93823]),
  (125184, [125218]), (125185, [125219]), (125186, [125220]), (125187, [125221]), (125188, [125222]), (125189, [125223]),
  (125190, [125224]), (125191, [125225]), (125192, [125226]), (125193, [125227]), (125194, [125228]), (125195, [125229]),
  (125196, [125230]), (125197, [125231]), (125198, [125232]), (125199, [125233]), (125200, [125234]), (125201, [125235]),
  (125202, [125236]), (125203, [125237]), (125204, [125238]), (125205, [125239]), (125206, [125240]), (125207, [125241]),
  (125208, [125242]), (125209, [125243]), (125210, [125244]), (125211, [125245]), (125212, [125246]), (125213, [125247]),
  (125214, [125248]), (125215, [125249]), (125216, [125250]), (125217, [125251])]

/-- The lowercase mapping of CPython `str.lower()` (`_PyUnicode_ToLowerFull`):
every codepoint whose full lowercase mapping differs from itself, paired with
that mapping (one or two codepoints, e.g. U+0130 maps to two), in ascending
codepoint order.  U+03A3 is absent: CPython routes capital sigma through the
context-dependent final-sigma rule instead of this table. -/
def pyLowerTable : List (Nat × List Nat) :=
  pyLowerTable1 ++ pyLowerTable2 ++ pyLowerTable3 ++ pyLowerTable4 ++ pyLowerTable5 ++ pyLowerTable6 ++ pyLowerTable7 ++ pyLowerTable8

/-- The `Case_Ignorable` codepoints (CPython `_PyUnicode_IsCaseIgnorable`),
as closed ranges: the characters skipped when `str.lower()` scans the context
of a capital sigma. -/
def caseIgnorableRanges : List (Nat × Nat) :=
[
  (39, 39), (46, 46), (58, 58), (94, 94), (96, 96), (168, 168), (173, 173), (175, 175),
  (180, 180), (183, 184), (688, 879), (884, 885), (890, 890), (900, 901), (903, 903), (1155, 1161),
  (1369, 1369), (1375, 1375), (1425, 1469), (1471, 1471), (1473, 1474), (1476, 1477), (1479, 1479), (1524, 1524),
  (1536, 1541), (1552, 1562), (1564, 1564), (1600, 1600), (1611, 1631), (1648, 1648), (1750, 1757), (1759, 1768),
  (1770, 1773), (1807, 1807), (1809, 1809), (1840, 1866), (1958, 1968), (2027, 2037), (2042, 2042), (2045, 2045),
  (2070, 2093), (2137, 2139), (2184, 2184), (2192, 2193), (2200, 2207), (2249, 2306), (2362, 2362), (2364, 2364),
  (2369, 2376), (2381, 2381), (2385, 2391), (2402, 2403), (2417, 2417), (2433, 2433), (2492, 2492), (2497, 2500),
  (2509, 2509), (2530, 2531), (2558, 2558), (2561, 2562), (2620, 2620), (2625, 2626), (2631, 2632), (2635, 2637),
  (2641, 2641), (2672, 2673), (2677, 2677), (2689, 2690), (2748, 2748), (2753, 2757), (2759, 2760), (2765, 2765),
  (2786, 2787), (2810, 2815), (2817, 2817), (2876, 2876), (2879, 2879), (2881, 2884), (2893, 2893), (2901, 2902),
  (2914, 2915), (2946, 2946), (3008, 3008), (3021, 3021), (3072, 3072), (3076, 3076), (3132, 3132), (3134, 3136),
  (3142, 3144), (3146, 3149), (3157, 3158), (3170, 3171), (3201, 3201), (3260, 3260), (3263, 3263), (3270, 3270),
  (3276, 3277), (3298, 3299), (3328, 3329), (3387, 3388), (3393, 3396), (3405, 3405), (3426, 3427), (3457, 3457),
  (3530, 3530), (3538, 3540), (3542, 3542), (3633, 3633), (3636, 3642), (3654, 3662), (3761, 3761), (3764, 3772),
  (3782, 3782), (3784, 3789), (3864, 3865), (3893, 3893), (3895, 3895), (3897, 3897), (3953, 3966), (3968, 3972),
  (3974, 3975), (3981, 3991), (3993, 4028), (4038, 4038), (4141, 4144), (4146, 4151), (4153, 4154), (4157, 4158),
  (4184, 4185), (4190, 4192), (4209, 4212), (4226, 4226), (4229, 4230), (4237, 4237), (4253, 4253), (4348, 4348),
  (4957, 4959), (5906, 5908), (5938, 5939), (5970, 5971), (6002, 6003), (6068, 6069), (6071, 6077), (6086, 6086),
  (6089, 6099), (6103, 6103), (6109, 6109), (6155, 6159), (6211, 6211), (6277, 6278), (6313, 6313), (6432, 6434),
  (6439, 6440), (6450, 6450), (6457, 6459), (6679, 6680), (6683, 6683), (6742, 6742), (6744, 6750), (6752, 6752),
  (6754, 6754), (6757, 6764), (6771, 6780), (6783, 6783), (6823, 6823), (6832, 6862), (6912, 6915), (6964, 6964),
  (6966, 6970), (6972, 6972), (6978, 6978), (7019, 7027), (7040, 7041), (7074, 7077), (7080, 7081), (7083, 7085),
  (7142, 7142), (7144, 7145), (7149, 7149), (7151, 7153), (7212, 7219), (7222, 7223), (7288, 7293), (7376, 7378),
  (7380, 7392), (7394, 7400), (7405, 7405), (7412, 7412), (7416, 7417), (7468, 7530), (7544, 7544), (7579, 7679),
  (8125, 8125), (8127, 8129), (8141, 8143), (8157, 8159), (8173, 8175), (8189, 8190), (8203, 8207), (8216, 8217),
  (8228, 8228), (8231, 8231), (8234, 8238), (8288, 8292), (8294, 8303), (8305, 8305), (8319, 8319), (8336, 8348),
  (8400, 8432), (11388, 11389), (11503, 11505), (11631, 11631), (11647, 11647), (11744, 11775), (11823, 11823), (12293, 12293),
  (12330, 12333), (12337, 12341), (12347, 12347), (12441, 12446), (12540, 12542), (40981, 40981), (42232, 42237), (42508, 42508),
  (42607, 42610), (42612, 42621), (42623, 42623), (42652, 42655), (42736, 42737), (42752, 42785), (42864, 42864), (42888, 42890),
  (42994, 42996), (43000, 43001), (43010, 43010), (43014, 43014), (43019, 43019), (43045, 43046), (43052, 43052), (43204, 43205),
  (43232, 43249), (43263, 43263), (43302, 43309), (43335, 43345), (43392, 43394), (43443, 43443), (43446, 43449), (43452, 43453),
  (43471, 43471), (43493, 43494), (43561, 43566), (43569, 43570), (43573, 43574), (43587, 43587), (43596, 43596), (43632, 43632),
  (43644, 43644), (43696, 43696), (43698, 43700), (43703, 43704), (43710, 43711), (43713, 43713), (43741, 43741), (43756, 43757),
  (43763, 43764), (43766, 43766), (43867, 43871), (43881, 43883), (44005, 44005), (44008, 44008), (44013, 44013), (64286, 64286),
  (64434, 64450), (65024, 65039), (65043, 65043), (65056, 65071), (65106, 65106), (65109, 65109), (65279, 65279), (65287, 65287),
  (65294, 65294), (65306, 65306), (65342, 65342), (65344, 65344), (65392, 65392), (65438, 65439), (65507, 65507), (65529, 65531),
  (66045, 66045), (66272, 66272), (66422, 66426), (67456, 67461), (67463, 67504), (67506, 67514), (68097, 68099), (68101, 68102),
  (68108, 68111), (68152, 68154), (68159, 68159), (68325, 68326), (68900, 68903), (69291, 69292), (69446, 69456), (69506, 69509),
  (69633, 69633), (69688, 69702), (69744, 69744), (69747, 69748), (69759, 69761), (69811, 69814), (69817, 69818), (69821, 69821),
  (69826, 69826), (69837, 69837), (69888, 69890), (69927, 69931), (69933, 69940), (70003, 70003), (70016, 70017), (70070, 70078),
  (70089, 70092), (70095, 70095), (70191, 70193), (70196, 70196), (70198, 70199), (70206, 70206), (70367, 70367), (70371, 70378),
  (70400, 70401), (70459, 70460), (70464, 70464), (70502, 70508), (70512, 70516), (70712, 70719), (70722, 70724), (70726, 70726),
  (70750, 70750), (70835, 70840), (70842, 70842), (70847, 70848), (70850, 70851), (71090, 71093), (71100, 71101), (71103, 71104),
  (71132, 71133), (71219, 71226), (71229, 71229), (71231, 71232), (71339, 71339), (71341, 71341), (71344, 71349), (71351, 71351),
  (71453, 71455), (71458, 71461), (71463, 71467), (71727, 71735), (71737, 71738), (71995, 71996), (71998, 71998), (72003, 72003),
  (72148, 72151), (72154, 72155), (72160, 72160), (72193, 72202), (72243, 72248), (72251, 72254), (72263, 72263), (72273, 72278),
  (72281, 72283), (72330, 72342), (72344, 72345), (72752, 72758), (72760, 72765), (72767, 72767), (72850, 72871), (72874, 72880),
  (72882, 72883), (72885, 72886), (73009, 73014), (73018, 73018), (73020, 73021), (73023, 73029), (73031, 73031), (73104, 73105),
  (73109, 73109), (73111, 73111), (73459, 73460), (78896, 78904), (92912, 92916), (92976, 92982), (92992, 92995), (94031, 94031),
  (94095, 94111), (94176, 94177), (94179, 94180), (110576, 110579), (110581, 110587), (110589, 110590), (113821, 113822), (113824, 113827),
  (118528, 118573), (118576, 118598), (119143, 119145), (119155, 119170), (119173, 119179), (119210, 119213), (119362, 119364), (121344, 121398),
  (121403, 121452), (121461, 121461), (121476, 121476), (121499, 121503), (121505, 121519), (122880, 122886), (122888, 122904), (122907, 122913),
  (122915, 122916), (122918, 122922), (123184, 123197), (123566, 123566), (123628, 123631), (125136, 125142), (125252, 125259), (127995, 127999),
  (917505, 917505), (917536, 917631), (917760, 917999)]

/-- The `Cased` codepoints (CPython `_PyUnicode_IsCased`) outside the
case-ignorable set, as closed ranges.  The final-sigma rule only ever consults
casedness of the first non-case-ignorable neighbour, so this is the exact
predicate that scan needs. -/
def casedRanges : List (Nat × Nat) :=
[
  (65, 90), (97, 122), (170, 170), (181, 181), (186, 186), (192, 214), (216, 246), (248, 442),
  (444, 447), (452, 659), (661, 687), (880, 883), (886, 887), (891, 893), (895, 895), (902, 902),
  (904, 906), (908, 908), (910, 929), (931, 1013), (1015, 1153), (1162, 1327), (1329, 1366), (1376, 1416),
  (4256, 4293), (4295, 4295), (4301, 4301), (4304, 4346), (4349, 4351), (5024, 5109), (5112, 5117), (7296, 7304),
  (7312, 7354), (7357, 7359), (7424, 7467), (7531, 7543), (7545, 7578), (7680, 7957), (7960, 7965), (7968, 8005),
  (8008, 8013), (8016, 8023), (8025, 8025), (8027, 8027), (8029, 8029), (8031, 8061), (8064, 8116), (8118, 8124),
  (8126, 8126), (8130, 8132), (8134, 8140), (8144, 8147), (8150, 8155), (8160, 8172), (8178, 8180), (8182, 8188),
  (8450, 8450), (8455, 8455), (8458, 8467), (8469, 8469), (8473, 8477), (8484, 8484), (8486, 8486), (8488, 8488),
  (8490, 8493), (8495, 8500), (8505, 8505), (8508, 8511), (8517, 8521), (8526, 8526), (8544, 8575), (8579, 8580),
  (9398, 9449), (11264, 11387), (11390, 11492), (11499, 11502), (11506, 11507), (11520, 11557), (11559, 11559), (11565, 11565),
  (42560, 42605), (42624, 42651), (42786, 42863), (42865, 42887), (42891, 42894), (42896, 42954), (42960, 42961), (42963, 42963),
  (42965, 42969), (42997, 42998), (43002, 43002), (43824, 43866), (43872, 43880), (43888, 43967), (64256, 64262), (64275, 64279),
  (65313, 65338), (65345, 65370), (66560, 66639), (66736, 66771), (66776, 66811), (66928, 66938), (66940, 66954), (66956, 66962),
  (66964, 66965), (66967, 66977), (66979, 66993), (66995, 67001), (67003, 67004), (68736, 68786), (68800, 68850), (71840, 71903),
  (93760, 93823), (119808, 119892), (119894, 119964), (119966, 119967), (119970, 119970), (119973, 119974), (119977, 119980), (119982, 119993),
  (119995, 119995), (119997, 120003), (120005, 120069), (120071, 120074), (120077, 120084), (120086, 120092), (120094, 120121), (120123, 120126),
  (120128, 120132), (120134, 120134), (120138, 120144), (120146, 120485), (120488, 120512), (120514, 120538), (120540, 120570), (120572, 120596),
  (120598, 120628), (120630, 120654), (120656, 120686), (120688, 120712), (120714, 120744), (120746, 120770), (120772, 120779), (122624, 122633),
  (122635, 122654), (125184, 125251), (127280, 127305), (127312, 127337), (127344, 127369)]

/-- Range membership for the Unicode property tables. -/
def inRanges (c : Nat) : List (Nat × Nat) → Bool
  | [] => false
  | (lo, hi) :: rest => (decide (lo ≤ c) && decide (c ≤ hi)) || inRanges c rest

/-- `_PyUnicode_IsCaseIgnorable`. -/
def isCaseIgnorable (c : Char) : Bool := inRanges c.toNat caseIgnorableRanges

/-- `_PyUnicode_IsCased`, as consulted by the final-sigma scan (which only
ever tests the first non-case-ignorable character on each side). -/
def isCased (c : Char) : Bool := inRanges c.toNat casedRanges

/-- `_PyUnicode_ToLowerFull`: the table mapping, identity off the table. -/
def lowerFull (c : Char) : List Char :=
  match lookupId c.toNat pyLowerTable with
  | some cs => cs.map Char.ofNat
  | none => [c]

/-- CPython `handle_capital_sigma`: U+03A3 is in final position when the
nearest non-case-ignorable character before it exists and is cased, and the
nearest non-case-ignorable character after it is absent or not cased. -/
def finalSigma (before after : List Char) : Bool :=
  (match before.reverse.dropWhile isCaseIgnorable with
   | [] => false
   | c :: _ => isCased c) &&
  (match after.dropWhile isCaseIgnorable with
   | [] => true
   | c :: _ => !isCased c)

/-- CPython `do_lower`/`lower_ucs4`: map each character through the full
lowercase table, except capital sigma U+03A3, which becomes U+03C2 in final
position and U+03C3 otherwise; `before` accumulates the already-scanned
prefix that the sigma context rule looks back into. -/
def pyLowerGo (before : List Char) : List Char → List Char
  | [] => []
  | c :: rest =>
    (if c.toNat = 931 then
      (if finalSigma before rest then [Char.ofNat 962] else [Char.ofNat 963])
    else lowerFull c) ++ pyLowerGo (before ++ [c]) rest

/-- Python `str.lower()` over a character string. -/
def pyLower (s : List Char) : List Char := pyLowerGo [] s

/-- Worker for `re.sub(r"\s+", " ", s)`: the flag records whether the previous
character belonged to a whitespace run already replaced by a single space. -/
def collapseWsAux : List Char → Bool → List Char
  | [], _ => []
  | c :: rest, prevSpace =>
    if isPySpace c then
      if prevSpace then collapseWsAux rest true
      else ' ' :: collapseWsAux rest true
    else c :: collapseWsAux rest false

/-- `re.sub(r"\s+", " ", s)`: every maximal whitespace run becomes one space. -/
def collapseWs (s : List Char) : List Char := collapseWsAux s false

/-- Python `str.strip()`: drop leading and trailing whitespace. -/
def pyStrip (s : List Char) : List Char :=
  ((s.dropWhile (fun c => isPySpace c)).reverse.dropWhile (fun c => isPySpace c)).reverse

/-- `normalize_text` from `scripts/14_make_search_index.py`:
`s.lower()` (full CPython Unicode lowering, `pyLower`), then
`re.sub(r"\s+", " ", s).strip()`. -/
def normalize_text (s : List Char) : List Char :=
  pyStrip (collapseWs (pyLower s))

/-- All overlapping length-3 character windows of a string, in order. -/
def windows3 : List Char → List (List Char)
  | a :: b :: c :: rest => [a, b, c] :: windows3 (b :: c :: rest)
  | _ => []

/-- Hash of one trigram: FNV-1a over its UTF-8 bytes
(`fnv1a32_bytes(tri.encode("utf-8"))`). -/
def hashTri (w : List Char) : Nat := fnv1a32_bytes (encodeUtf8 w)

/-- `trigrams` from `scripts/14_make_search_index.py`: normalize, return the
empty set when the normalized text is shorter than 3, otherwise the set of
hashes collected by `for i in range(len(t) - 2): out.add(fnv1a32(t[i:i+3]))`. -/
def trigrams (text : List Char) : Finset Nat :=
  let t := normalize_text text
  if t.length < 3 then ∅
  else ((List.range (t.length - 2)).map (fun i => hashTri ((t.drop i).take 3))).toFinset

/-! ### Supporting lemmas for the search-index claims -/

theorem fnv1a32_foldl_lt (bs : List Nat) :
    ∀ h : Nat, h < 4294967296 → bs.foldl fnv1a32_step h < 4294967296 := by
  induction bs with
  | nil => intro h hh; simpa using hh
  | cons b rest ih =>
    intro h hh
    have hstep : fnv1a32_step h b < 4294967296 := Nat.mod_lt _ (by norm_num)
    simpa [List.foldl_cons] using ih (fnv1a32_step h b) hstep

theorem windows3_eq_slices : ∀ t : List Char,
    windows3 t = (List.range (t.length - 2)).map (fun i => (t.drop i).take 3)
  | [] => rfl
  | [_] => rfl
  | [_, _] => rfl
  | a :: b :: c :: rest => by
    have ih := windows3_eq_slices (b :: c :: rest)
    have hlen : (a :: b :: c :: rest).length - 2 = ((b :: c :: rest).length - 2) + 1 := by
      simp [List.length_cons]
    rw [windows3, hlen, List.range_succ_eq_map, List.map_cons, List.map_map]
    refine congrArg₂ _ (by simp) ?_
    rw [ih]
    refine List.map_congr_left fun i _ => ?_
    simp [Function.comp, List.drop_succ_cons]

theorem trigrams_eq_window_hashes (text : List Char) :
    trigrams text = ((windows3 (normalize_text text)).map hashTri).toFinset := by
  unfold trigrams
  by_cases hlen : (normalize_text text).length < 3
  · rw [if_pos hlen, windows3_eq_slices]
    have h0 : (normalize_text text).length - 2 = 0 := by omega
    simp [h0]
  · rw [if_neg hlen, windows3_eq_slices, List.map_map]
    rfl

/-- Claim C4: the search-index trigram hash is exactly 32-bit FNV-1a over the
UTF-8 bytes of the trigram: seed 2166136261, each byte xored into the state
which is then multiplied by 16777619 modulo 2^32; every result fits in 32
bits, and `fnv1a32("cat")` equals the fixed value 108289031. -/
theorem fnv1a32_spec :
    (∀ bs : List Nat, fnv1a32_bytes bs < 4294967296) ∧
    fnv1a32_bytes (encodeUtf8 "cat".data) = 108289031 := by
  constructor
  · intro bs
    exact fnv1a32_foldl_lt bs 2166136261 (by norm_num)
  · decide

set_option maxRecDepth 40000 in
set_option maxHeartbeats 4000000 in
/-- Claim C5: trigram extraction normalizes the text (Unicode lowercase,
whitespace runs collapsed to single spaces, trimmed) and returns the set of
hashes of all overlapping length-3 windows of the normalized text; a
normalized text shorter than 3 yields the empty set, and the input "AB  C" —
whose normalization is "ab c" — yields exactly the hashes of the windows
"ab " and "b c".  The two extra normalizations exercise the non-ASCII cases:
É lowers to é and the NBSP introduced by `html.unescape` collapses like any
`\s` whitespace, and a trailing capital sigma takes its final form. -/
theorem trigrams_spec :
    (∀ text : List Char, (normalize_text text).length < 3 → trigrams text = ∅) ∧
    (∀ text : List Char,
      trigrams text = ((windows3 (normalize_text text)).map hashTri).toFinset) ∧
    normalize_text "AB  C".data = "ab c".data ∧
    normalize_text "É\u00A0T".data = "é t".data ∧
    normalize_text "ΑΣ".data = "ας".data ∧
    trigrams "AB  C".data = {hashTri "ab ".data, hashTri "b c".data} := by
  refine ⟨fun text h => ?_, trigrams_eq_window_hashes, by rfl, by rfl, by rfl, by decide⟩
  unfold trigrams
  rw [if_pos h]

set_option maxRecDepth 40000 in
set_option maxHeartbeats 1000000 in
/-- Witness for C5 at a concrete short input: "no" normalizes to itself
(length 2) and indeed produces no trigrams. -/
theorem trigrams_spec_witness : trigrams "no".data = ∅ :=
  trigrams_spec.1 "no".data (by decide)

/-! ### 06_pack_points.py : canonical packing order -/

/-- Worker for pandas `drop_duplicates("id")` (default `keep="first"`): keep a
row only when its id has not been seen yet. -/
def dropDuplicatesIdAux {ρ : Type} (seen : List Int) : List (Int × ρ) → List (Int × ρ)
  | [] => []
  | r :: rest =>
    if r.1 ∈ seen then dropDuplicatesIdAux seen rest
    else r :: dropDuplicatesIdAux (r.1 :: seen) rest

/-- pandas `df.drop_duplicates("id")`: keeps, in input order, the first row of
each id. -/
def dropDuplicatesId {ρ : Type} (rows : List (Int × ρ)) : List (Int × ρ) :=
  dropDuplicatesIdAux [] rows

/-- `scripts/06_pack_points.py` line 43:
`df = df.drop_duplicates("id").sort_values("id")` — dedup then ascending sort
by id. -/
def pack_rows {ρ : Type} (rows : List (Int × ρ)) : List (Int × ρ) :=
  List.insertionSort (fun a b => a.1 ≤ b.1) (dropDuplicatesId rows)

/-- Modelled from the spec: the packing order the spec describes, in which the
LAST occurrence of a duplicated id wins (dedup the reversed row list, then
sort ascending by id).  Used only to compare the spec against `pack_rows`. -/
def pack_rows_last_wins {ρ : Type} (rows : List (Int × ρ)) : List (Int × ρ) :=
  List.insertionSort (fun a b => a.1 ≤ b.1) (dropDuplicatesId rows.reverse)


/-! ### Supporting lemmas for the packing claims -/

instance {ρ : Type} : IsTotal (Int × ρ) (fun a b => a.1 ≤ b.1) :=
  ⟨fun a b => le_total a.1 b.1⟩

instance {ρ : Type} : IsTrans (Int × ρ) (fun a b => a.1 ≤ b.1) :=
  ⟨fun _ _ _ hab hbc => le_trans hab hbc⟩

theorem ddAux_keys_spec {ρ : Type} :
    ∀ (l : List (Int × ρ)) (seen : List Int),
      ((dropDuplicatesIdAux seen l).map Prod.fst).Nodup ∧
      ∀ k ∈ (dropDuplicatesIdAux seen l).map Prod.fst, k ∈ l.map Prod.fst ∧ k ∉ seen := by
  intro l
  induction l with
  | nil => intro seen; simp [dropDuplicatesIdAux]
  | cons r rest ih =>
    intro seen
    by_cases hr : r.1 ∈ seen
    · rw [dropDuplicatesIdAux, if_pos hr]
      refine ⟨(ih seen).1, fun k hk => ?_⟩
      obtain ⟨hk1, hk2⟩ := (ih seen).2 k hk
      exact ⟨by simp [hk1], hk2⟩
    · rw [dropDuplicatesIdAux, if_neg hr]
      obtain ⟨ihnd, ihmem⟩ := ih (r.1 :: seen)
      constructor
      · rw [List.map_cons, List.nodup_cons]
        refine ⟨fun hmem => ?_, ihnd⟩
        exact ((ihmem r.1 hmem).2) (by simp)
      · intro k hk
        rw [List.map_cons, List.mem_cons] at hk
        rcases hk with hk | hk
        · exact ⟨by simp [hk], hk ▸ hr⟩
        · obtain ⟨hk1, hk2⟩ := ihmem k hk
          refine ⟨by simp [hk1], fun hks => hk2 (by simp [hks])⟩

theorem ddAux_mem_keys {ρ : Type} :
    ∀ (l : List (Int × ρ)) (seen : List Int) (k : Int),
      k ∈ (dropDuplicatesIdAux seen l).map Prod.fst ↔
        k ∈ l.map Prod.fst ∧ k ∉ seen := by
  intro l
  induction l with
  | nil => intro seen k; simp [dropDuplicatesIdAux]
  | cons r rest ih =>
    intro seen k
    by_cases hr : r.1 ∈ seen
    · rw [dropDuplicatesIdAux, if_pos hr, ih seen k, List.map_cons, List.mem_cons]
      constructor
      · rintro ⟨h1, h2⟩; exact ⟨Or.inr h1, h2⟩
      · rintro ⟨h1 | h1, h2⟩
        · exact absurd (h1 ▸ hr) h2
        · exact ⟨h1, h2⟩
    · rw [dropDuplicatesIdAux, if_neg hr, List.map_cons, List.mem_cons, ih (r.1 :: seen) k,
        List.map_cons, List.mem_cons, List.mem_cons]
      constructor
      · rintro (h | ⟨h1, h2⟩)
        · exact ⟨Or.inl h, h ▸ hr⟩
        · exact ⟨Or.inr h1, fun hs => h2 (Or.inr hs)⟩
      · rintro ⟨h1 | h1, h2⟩
        · exact Or.inl h1
        · by_cases hk : k = r.1
          · exact Or.inl hk
          · refine Or.inr ⟨h1, fun hs => ?_⟩
            rcases hs with hs | hs
            · exact hk hs
            · exact h2 hs

theorem ddAux_lookup {ρ : Type} :
    ∀ (l : List (Int × ρ)) (seen : List Int) (k : Int), k ∉ seen →
      lookupId k (dropDuplicatesIdAux seen l) = lookupId k l := by
  intro l
  induction l with
  | nil => intro seen k _; rfl
  | cons r rest ih =>
    intro seen k hk
    by_cases hr : r.1 ∈ seen
    · rw [dropDuplicatesIdAux, if_pos hr, ih seen k hk, lookupId]
      have hne : r.1 ≠ k := fun h => hk (h ▸ hr)
      rw [if_neg hne]
    · rw [dropDuplicatesIdAux, if_neg hr, lookupId, lookupId]
      by_cases hrk : r.1 = k
      · rw [if_pos hrk, if_pos hrk]
      · rw [if_neg hrk, if_neg hrk]
        refine ih (r.1 :: seen) k ?_
        intro hks
        rcases List.mem_cons.1 hks with h | h
        · exact hrk h.symm
        · exact hk h

theorem lookupId_eq_some_mem {κ ρ : Type} [DecidableEq κ] {k : κ} {v : ρ} :
    ∀ {l : List (κ × ρ)}, lookupId k l = some v → (k, v) ∈ l := by
  intro l
  induction l with
  | nil => intro h; simp [lookupId] at h
  | cons r rest ih =>
    intro h
    rw [lookupId] at h
    by_cases hr : r.1 = k
    · rw [if_pos hr] at h
      have hkv : (k, v) = r := by
        obtain ⟨r1, r2⟩ := r
        simp only [Option.some.injEq] at h
        simp only at hr
        simp [hr, h]
      rw [hkv]
      exact List.mem_cons_self _ _
    · rw [if_neg hr] at h
      exact List.mem_cons_of_mem _ (ih h)

theorem lookupId_of_mem_nodup {κ ρ : Type} [DecidableEq κ] {k : κ} {v : ρ} :
    ∀ {l : List (κ × ρ)}, (k, v) ∈ l → (l.map Prod.fst).Nodup →
      lookupId k l = some v := by
  intro l
  induction l with
  | nil => intro h _; simp at h
  | cons r rest ih =>
    intro hmem hnd
    rw [List.map_cons, List.nodup_cons] at hnd
    rw [lookupId]
    rcases List.mem_cons.1 hmem with h | h
    · rw [if_pos (by rw [← h])]
      rw [← h]
    · have hne : r.1 ≠ k := by
        intro he
        apply hnd.1
        rw [he]
        exact List.mem_map_of_mem Prod.fst h
      rw [if_neg hne]
      exact ih h hnd.2

theorem lookupId_eq_none_iff {κ ρ : Type} [DecidableEq κ] {k : κ} :
    ∀ {l : List (κ × ρ)}, lookupId k l = none ↔ k ∉ l.map Prod.fst := by
  intro l
  induction l with
  | nil => simp [lookupId]
  | cons r rest ih =>
    rw [lookupId, List.map_cons]
    by_cases hr : r.1 = k
    · simp [hr]
    · rw [if_neg hr, ih, List.mem_cons]
      constructor
      · intro h hmem
        rcases hmem with hmem | hmem
        · exact hr hmem.symm
        · exact h hmem
      · intro h hmem
        exact h (Or.inr hmem)

theorem lookupId_perm {κ ρ : Type} [DecidableEq κ] {l l' : List (κ × ρ)} (hp : List.Perm l l')
    (hnd : (l.map Prod.fst).Nodup) (k : κ) : lookupId k l = lookupId k l' := by
  cases hcase : lookupId k l with
  | some v =>
    have hmem : (k, v) ∈ l' := hp.mem_iff.1 (lookupId_eq_some_mem hcase)
    have hnd' : (l'.map Prod.fst).Nodup := ((hp.map Prod.fst).nodup_iff).1 hnd
    rw [lookupId_of_mem_nodup hmem hnd']
  | none =>
    have : k ∉ l'.map Prod.fst := fun hmem =>
      (lookupId_eq_none_iff.1 hcase) ((hp.map Prod.fst).mem_iff.2 hmem)
    exact (lookupId_eq_none_iff.2 this).symm

/-- Claim C1 counterexample: packing the rows with ids `[5, 3, 3, 1]` keeps the
FIRST occurrence of id 3 (payload 1), not the last (payload 2): pandas
`drop_duplicates` defaults to `keep="first"`, so the spec-described
last-occurrence packing disagrees with the code on this input. -/
theorem pack_rows_counterexample :
    pack_rows [((5 : Int), (0 : Nat)), (3, 1), (3, 2), (1, 3)] = [(1, 3), (3, 1), (5, 0)] ∧
    pack_rows_last_wins [((5 : Int), (0 : Nat)), (3, 1), (3, 2), (1, 3)] =
      [(1, 3), (3, 2), (5, 0)] ∧
    pack_rows [((5 : Int), (0 : Nat)), (3, 1), (3, 2), (1, 3)] ≠
      pack_rows_last_wins [((5 : Int), (0 : Nat)), (3, 1), (3, 2), (1, 3)] := by
  refine ⟨by decide, by decide, by decide⟩

/-- Claim C1 (amended): the binary packing stage dedups ids keeping the FIRST
occurrence of each id and sorts ascending: the packed id column is strictly
increasing, contains exactly the input ids, and the row packed for an id is
the first row carrying that id in the input. -/
theorem pack_rows_first_wins {ρ : Type} (rows : List (Int × ρ)) :
    List.Sorted (· < ·) ((pack_rows rows).map Prod.fst) ∧
    (∀ i : Int, i ∈ (pack_rows rows).map Prod.fst ↔ i ∈ rows.map Prod.fst) ∧
    (∀ i : Int, lookupId i (pack_rows rows) = lookupId i rows) := by
  have hperm : List.Perm (pack_rows rows) (dropDuplicatesId rows) :=
    List.perm_insertionSort _ _
  have hddnd : ((dropDuplicatesId rows).map Prod.fst).Nodup :=
    (ddAux_keys_spec rows []).1
  have hpacknd : ((pack_rows rows).map Prod.fst).Nodup :=
    ((hperm.map Prod.fst).nodup_iff).2 hddnd
  have hsorted_le : List.Sorted (fun a b : Int × ρ => a.1 ≤ b.1) (pack_rows rows) :=
    List.sorted_insertionSort _ _
  refine ⟨?_, ?_, ?_⟩
  · have hle : List.Sorted (· ≤ ·) ((pack_rows rows).map Prod.fst) :=
      List.pairwise_map.2 hsorted_le
    exact hle.lt_of_le hpacknd
  · intro i
    rw [(hperm.map Prod.fst).mem_iff]
    show i ∈ (dropDuplicatesIdAux [] rows).map Prod.fst ↔ _
    rw [ddAux_mem_keys]
    simp
  · intro i
    have h1 : lookupId i (pack_rows rows) = lookupId i (dropDuplicatesId rows) :=
      lookupId_perm hperm hpacknd i
    have h2 : lookupId i (dropDuplicatesIdAux [] rows) = lookupId i rows :=
      ddAux_lookup rows [] i (by simp)
    exact h1.trans h2

/-! ### 09_cluster_2d.py / 10_cluster_embed.py : cluster label remapping -/

/-- `np.unique`: the sorted list of distinct values. -/
def npUnique (l : List Int) : List Int := List.insertionSort (· ≤ ·) l.dedup

/-- Index of the first occurrence of `v` (list length when absent).  Models the
`{old: new for new, old in enumerate(clusters)}` dictionaries of the cluster
relabeling code: on the deduplicated `clusters` lists it is the enumeration
index, and the length default is exactly `dict.get(v, noise_bucket)`. -/
def idxOf {α : Type} [DecidableEq α] (v : α) : List α → Nat
  | [] => 0
  | x :: xs => if x = v then 0 else idxOf v xs + 1

/-- `relabel_clusters` from `scripts/09_cluster_2d.py`: sort the distinct
non-negative raw labels ascending, renumber them `0..C-1` by sorted position,
and send the noise marker `-1` to `C` (the labels are HDBSCAN output, so every
entry is `-1` or a non-negative cluster id; the uint16 conversion is the
identity within the pipeline's `< 2^16` label contract).
Returns `(new_labels, num_clusters, noise_id)`. -/
def relabel_clusters (labels : List Int) : List Nat × Nat × Nat :=
  let clusters := List.insertionSort (· ≤ ·) ((npUnique labels).filter (fun c => decide (0 ≤ c)))
  let noise_id := clusters.length
  let new_labels := labels.map (fun v => if v = -1 then noise_id else idxOf v clusters)
  (new_labels, clusters.length, noise_id)

/-- `remap_to_uint16` from `scripts/10_cluster_embed.py`: distinct raw labels
other than `-1`, sorted ascending, keep positions `0..K-1`; `-1` and any value
missing from the mapping go to the noise bucket `K` (`mapping.get(v, noise_bucket)`,
which `idxOf`'s length default reproduces); when no cluster exists the whole
buffer is zero.  Returns `(cluster_uint16, num_clusters)`. -/
def remap_to_uint16 (labels_raw : List Int) : List Nat × Nat :=
  let clusters := List.insertionSort (· ≤ ·)
    ((npUnique labels_raw).filter (fun u => decide (u ≠ -1)))
  let num_clusters := clusters.length
  if num_clusters = 0 then (labels_raw.map (fun _ => 0), 0)
  else (labels_raw.map (fun v => if v = -1 then num_clusters else idxOf v clusters), num_clusters)

/-- `np.max` over a `uint16` buffer (0 on the empty buffer, which numpy
rejects; the claims only use it on non-empty buffers). -/
def maxList (l : List Nat) : Nat := l.foldr max 0

/-! ### Supporting lemmas for the cluster claims -/

theorem idxOf_of_not_mem {α : Type} [DecidableEq α] {v : α} :
    ∀ {l : List α}, v ∉ l → idxOf v l = l.length := by
  intro l
  induction l with
  | nil => intro _; rfl
  | cons x xs ih =>
    intro hv
    have hx : ¬x = v := fun h => hv (by rw [← h]; exact List.mem_cons_self x xs)
    rw [idxOf, if_neg hx, List.length_cons, ih (fun h => hv (List.mem_cons_of_mem _ h))]

theorem idxOf_lt_length {α : Type} [DecidableEq α] {v : α} :
    ∀ {l : List α}, v ∈ l → idxOf v l < l.length := by
  intro l
  induction l with
  | nil => intro h; simp at h
  | cons x xs ih =>
    intro hv
    rw [idxOf]
    by_cases hx : x = v
    · rw [if_pos hx]; simp
    · rw [if_neg hx, List.length_cons]
      have : v ∈ xs := by
        rcases List.mem_cons.1 hv with h | h
        · exact absurd h.symm hx
        · exact h
      exact Nat.succ_lt_succ (ih this)

theorem get_idxOf {α : Type} [DecidableEq α] {v : α} :
    ∀ {l : List α} (hv : v ∈ l), l.get ⟨idxOf v l, idxOf_lt_length hv⟩ = v := by
  intro l
  induction l with
  | nil => intro h; simp at h
  | cons x xs ih =>
    intro hv
    by_cases hx : x = v
    · simp [idxOf, hx]
    · have hvs : v ∈ xs := by
        rcases List.mem_cons.1 hv with h | h
        · exact absurd h.symm hx
        · exact h
      have := ih hvs
      simp only [idxOf, if_neg hx]
      simpa using this

theorem idxOf_get {α : Type} [DecidableEq α] :
    ∀ {l : List α}, l.Nodup → ∀ i, ∀ hi : i < l.length, idxOf (l.get ⟨i, hi⟩) l = i := by
  intro l
  induction l with
  | nil => intro _ i hi; simp at hi
  | cons x xs ih =>
    intro hnd i hi
    rw [List.nodup_cons] at hnd
    cases i with
    | zero => simp [idxOf]
    | succ n =>
      have hn : n < xs.length := by simpa using hi
      have hne : x ≠ xs.get ⟨n, hn⟩ := by
        intro h
        apply hnd.1
        rw [h]
        exact List.get_mem xs n hn
      simp only [List.get_cons_succ, idxOf, if_neg hne]
      rw [ih hnd.2 n hn]

theorem idxOf_le_iff_of_sorted {l : List Int} (hs : List.Sorted (· < ·) l) {a b : Int}
    (ha : a ∈ l) (hb : b ∈ l) : idxOf a l ≤ idxOf b l ↔ a ≤ b := by
  have hga := get_idxOf ha
  have hgb := get_idxOf hb
  constructor
  · intro h
    calc a = l.get ⟨idxOf a l, idxOf_lt_length ha⟩ := hga.symm
    _ ≤ l.get ⟨idxOf b l, idxOf_lt_length hb⟩ :=
        hs.get_strictMono.monotone (by simpa using h)
    _ = b := hgb
  · intro h
    by_contra hcon
    have hlt : idxOf b l < idxOf a l := by omega
    have : l.get ⟨idxOf b l, idxOf_lt_length hb⟩ < l.get ⟨idxOf a l, idxOf_lt_length ha⟩ :=
      hs.get_strictMono (by simpa using hlt)
    rw [hga, hgb] at this
    omega

theorem mem_npUnique {l : List Int} {x : Int} : x ∈ npUnique l ↔ x ∈ l := by
  rw [npUnique, List.mem_insertionSort, List.mem_dedup]

theorem nodup_npUnique (l : List Int) : (npUnique l).Nodup :=
  ((List.perm_insertionSort _ _).nodup_iff).2 (List.nodup_dedup l)

theorem idxOf_le_length {α : Type} [DecidableEq α] (v : α) :
    ∀ l : List α, idxOf v l ≤ l.length := by
  intro l
  induction l with
  | nil => exact Nat.le_refl 0
  | cons x xs ih =>
    rw [idxOf]
    by_cases hx : x = v
    · rw [if_pos hx]; exact Nat.zero_le _
    · rw [if_neg hx, List.length_cons]
      exact Nat.succ_le_succ ih

theorem clusters_nodup (labels : List Int) (p : Int → Bool) :
    (List.insertionSort (· ≤ ·) ((npUnique labels).filter p)).Nodup :=
  ((List.perm_insertionSort _ _).nodup_iff).2 ((nodup_npUnique labels).filter p)

theorem clusters_sorted (labels : List Int) (p : Int → Bool) :
    List.Sorted (· < ·) (List.insertionSort (· ≤ ·) ((npUnique labels).filter p)) :=
  (List.sorted_insertionSort _ _).lt_of_le (clusters_nodup labels p)

theorem mem_clusters (labels : List Int) (p : Int → Bool) {x : Int} :
    x ∈ List.insertionSort (· ≤ ·) ((npUnique labels).filter p) ↔ x ∈ labels ∧ p x = true := by
  rw [List.mem_insertionSort, List.mem_filter, mem_npUnique]

theorem le_maxList_of_mem {l : List Nat} {x : Nat} (hx : x ∈ l) : x ≤ maxList l := by
  induction l with
  | nil => simp at hx
  | cons y ys ih =>
    rw [maxList, List.foldr_cons]
    rcases List.mem_cons.1 hx with h | h
    · rw [h]; exact Nat.le_max_left _ _
    · exact Nat.le_trans (ih h) (Nat.le_max_right _ _)

theorem maxList_le_of_forall {l : List Nat} {m : Nat} (h : ∀ x ∈ l, x ≤ m) :
    maxList l ≤ m := by
  induction l with
  | nil => exact Nat.zero_le m
  | cons y ys ih =>
    rw [maxList, List.foldr_cons]
    refine Nat.max_le.2 ⟨h y (List.mem_cons_self _ _), ih fun x hx => h x (List.mem_cons_of_mem _ hx)⟩

theorem maxList_eq_of_mem_of_le {l : List Nat} {m : Nat} (hmem : m ∈ l)
    (hle : ∀ x ∈ l, x ≤ m) : maxList l = m :=
  Nat.le_antisymm (maxList_le_of_forall hle) (le_maxList_of_mem hmem)

theorem clusters_eq_of_dom {labels : List Int} (hdom : ∀ v ∈ labels, v = -1 ∨ 0 ≤ v) :
    (npUnique labels).filter (fun u => decide (u ≠ -1)) =
      (npUnique labels).filter (fun c => decide (0 ≤ c)) := by
  refine List.filter_congr fun x hx => ?_
  have hx' : x ∈ labels := mem_npUnique.1 hx
  rcases hdom x hx' with h | h
  · subst h; decide
  · have h1 : decide (0 ≤ x) = true := decide_eq_true h
    have h2 : decide (x ≠ -1) = true := decide_eq_true (by omega)
    rw [h1, h2]

theorem remap_eq_relabel_of_dom {labels : List Int}
    (hdom : ∀ v ∈ labels, v = -1 ∨ 0 ≤ v) :
    remap_to_uint16 labels = ((relabel_clusters labels).1, (relabel_clusters labels).2.1) := by
  simp only [remap_to_uint16, relabel_clusters, clusters_eq_of_dom hdom]
  by_cases hz :
      (List.insertionSort (· ≤ ·) ((npUnique labels).filter fun c => decide (0 ≤ c))).length = 0
  · rw [if_pos hz]
    have hnil : List.insertionSort (· ≤ ·) ((npUnique labels).filter fun c => decide (0 ≤ c)) = [] :=
      List.eq_nil_of_length_eq_zero hz
    rw [hnil]
    refine Prod.ext ?_ (by simp)
    show labels.map (fun _ => 0) = labels.map fun v => if v = -1 then ([] : List Int).length else idxOf v []
    refine List.map_congr_left fun v _ => ?_
    by_cases hv : v = -1
    · rw [if_pos hv]; rfl
    · rw [if_neg hv]; rfl
  · rw [if_neg hz]

/-- Claim C3: both cluster-label remapping implementations
(`relabel_clusters` of 09_cluster_2d.py and `remap_to_uint16` of
10_cluster_embed.py) agree: they sort the distinct non-noise raw labels
ascending, assign indices `0..C-1` in that order (order-isomorphically and
onto), map the noise marker `-1` to `C`, and remapping `[-1, 2, 2, 0, -1]`
yields `[2, 1, 1, 0, 2]`. -/
theorem cluster_remap_spec :
    relabel_clusters [-1, 2, 2, 0, -1] = ([2, 1, 1, 0, 2], 2, 2) ∧
    remap_to_uint16 [-1, 2, 2, 0, -1] = ([2, 1, 1, 0, 2], 2) ∧
    ∀ labels : List Int, (∀ v ∈ labels, v = -1 ∨ 0 ≤ v) →
      (relabel_clusters labels).1 = (remap_to_uint16 labels).1 ∧
      (relabel_clusters labels).2.1 = (remap_to_uint16 labels).2 ∧
      (∀ i, ∀ hi : i < labels.length, labels[i] = -1 →
        (relabel_clusters labels).1.getD i 0 = (relabel_clusters labels).2.1) ∧
      (∀ i j, ∀ hi : i < labels.length, ∀ hj : j < labels.length,
        0 ≤ labels[i] → 0 ≤ labels[j] →
        ((relabel_clusters labels).1.getD i 0 ≤ (relabel_clusters labels).1.getD j 0 ↔
          labels[i] ≤ labels[j])) ∧
      (∀ k, k < (relabel_clusters labels).2.1 →
        ∃ i, ∃ hi : i < labels.length, 0 ≤ labels[i] ∧
          (relabel_clusters labels).1.getD i 0 = k) := by
  refine ⟨by decide, by decide, fun labels hdom => ?_⟩
  have hrm := remap_eq_relabel_of_dom hdom
  refine ⟨by rw [hrm], by rw [hrm], ?_, ?_, ?_⟩
  · intro i hi hneg
    have hlen : i < ((relabel_clusters labels).1).length := by
      simpa [relabel_clusters] using hi
    rw [List.getD_eq_getElem _ _ hlen]
    show (labels.map _)[i] = _
    rw [List.getElem_map, hneg]
    rfl
  · intro i j hi hj hni hnj
    have hleni : i < ((relabel_clusters labels).1).length := by
      simpa [relabel_clusters] using hi
    have hlenj : j < ((relabel_clusters labels).1).length := by
      simpa [relabel_clusters] using hj
    rw [List.getD_eq_getElem _ _ hleni, List.getD_eq_getElem _ _ hlenj]
    show (labels.map _)[i] ≤ (labels.map _)[j] ↔ _
    rw [List.getElem_map, List.getElem_map,
      if_neg (show ¬labels[i] = -1 by omega), if_neg (show ¬labels[j] = -1 by omega)]
    exact idxOf_le_iff_of_sorted (clusters_sorted labels _)
      ((mem_clusters labels _).2 ⟨List.getElem_mem hi, decide_eq_true hni⟩)
      ((mem_clusters labels _).2 ⟨List.getElem_mem hj, decide_eq_true hnj⟩)
  · intro k hk
    have hk' : k < (List.insertionSort (· ≤ ·)
        ((npUnique labels).filter fun c => decide (0 ≤ c))).length := hk
    set cl := List.insertionSort (· ≤ ·) ((npUnique labels).filter fun c => decide (0 ≤ c))
      with hcl
    have hvmem : cl.get ⟨k, hk'⟩ ∈ cl := List.get_mem cl k hk'
    obtain ⟨hvl, hvp⟩ := (mem_clusters labels _).1 hvmem
    obtain ⟨i, hi, hgi⟩ := List.getElem_of_mem hvl
    have hvpos : 0 ≤ cl.get ⟨k, hk'⟩ := of_decide_eq_true hvp
    refine ⟨i, hi, by rw [hgi]; exact hvpos, ?_⟩
    have hlen : i < ((relabel_clusters labels).1).length := by
      simpa [relabel_clusters] using hi
    rw [List.getD_eq_getElem _ _ hlen]
    show (labels.map _)[i] = k
    rw [List.getElem_map, hgi, if_neg (by omega)]
    exact idxOf_get (clusters_nodup labels _) k hk'

/-- Witness for C3: the general conjunct applied at the concrete raw labels
`[-1, 0]`, which satisfy the HDBSCAN output domain. -/
theorem cluster_remap_spec_witness :
    (relabel_clusters [-1, 0]).1 = (remap_to_uint16 [-1, 0]).1 :=
  (cluster_remap_spec.2.2 [-1, 0] (by decide)).1

/-- Claim C7 counterexample: on the raw labels `[0, 1]` — a clustering outcome
with no noise point, e.g. after the noise-rescue pass reassigned every noise
point — `relabel_clusters` records sentinel 2 while the buffer maximum is 1,
so the recorded sentinel is NOT always the maximum value in the buffer. -/
theorem sentinel_counterexample :
    relabel_clusters [0, 1] = ([0, 1], 2, 2) ∧
    maxList (relabel_clusters [0, 1]).1 = 1 ∧
    (relabel_clusters [0, 1]).2.2 ≠ maxList (relabel_clusters [0, 1]).1 := by
  refine ⟨by decide, by decide, by decide⟩

/-- Claim C7 (amended): every point whose raw label is the noise marker `-1`
is assigned exactly the recorded sentinel; the sentinel equals the buffer
maximum whenever at least one noise point exists, and is one greater than the
buffer maximum (one past the largest real cluster index) when no point is
noise. -/
theorem relabel_out_core (labels cl : List Int) (hnd : cl.Nodup)
    (hmemcl : ∀ x : Int, x ∈ cl ↔ x ∈ labels ∧ 0 ≤ x)
    (hdom : ∀ v ∈ labels, v = -1 ∨ 0 ≤ v) :
    ((-1 : Int) ∈ labels →
      maxList (labels.map (fun v => if v = -1 then cl.length else idxOf v cl)) = cl.length) ∧
    (labels ≠ [] → (-1 : Int) ∉ labels →
      maxList (labels.map (fun v => if v = -1 then cl.length else idxOf v cl)) + 1 =
        cl.length) := by
  constructor
  · intro hmem
    have heq : (fun v : Int => if v = -1 then cl.length else idxOf v cl) (-1) = cl.length := by
      simp
    have h1 := List.mem_map_of_mem (fun v : Int => if v = -1 then cl.length else idxOf v cl) hmem
    rw [heq] at h1
    refine maxList_eq_of_mem_of_le h1 ?_
    intro x hx
    obtain ⟨v, hv, rfl⟩ := List.mem_map.1 hx
    by_cases hveq : v = -1
    · rw [if_pos hveq]
    · rw [if_neg hveq]
      exact idxOf_le_length v cl
  · intro hne hnmem
    have hallpos : ∀ v ∈ labels, v ∈ cl := by
      intro v hv
      refine (hmemcl v).2 ⟨hv, ?_⟩
      refine (hdom v hv).resolve_left fun h => hnmem ?_
      rw [← h]
      exact hv
    obtain ⟨x, hx⟩ := List.exists_mem_of_ne_nil labels hne
    have hclpos : 0 < cl.length := by
      rcases Nat.eq_zero_or_pos cl.length with h0 | h
      · have := hallpos x hx
        rw [List.eq_nil_of_length_eq_zero h0] at this
        simp at this
      · exact h
    have h2 : ∀ y ∈ labels.map (fun v => if v = -1 then cl.length else idxOf v cl),
        y ≤ cl.length - 1 := by
      intro y hy
      obtain ⟨v, hv, rfl⟩ := List.mem_map.1 hy
      rw [if_neg (show ¬v = -1 from fun h => hnmem (by rw [← h]; exact hv))]
      have := idxOf_lt_length (hallpos v hv)
      omega
    have hklt : cl.length - 1 < cl.length := by omega
    have hvmem : cl.get ⟨cl.length - 1, hklt⟩ ∈ cl := List.get_mem cl _ _
    have hvl : cl.get ⟨cl.length - 1, hklt⟩ ∈ labels := ((hmemcl _).1 hvmem).1
    have h1 : cl.length - 1 ∈
        labels.map (fun v => if v = -1 then cl.length else idxOf v cl) := by
      have hm := List.mem_map_of_mem
        (fun v : Int => if v = -1 then cl.length else idxOf v cl) hvl
      have heq2 : (fun v : Int => if v = -1 then cl.length else idxOf v cl)
          (cl.get ⟨cl.length - 1, hklt⟩) = cl.length - 1 := by
        have hvpos : (0 : Int) ≤ cl.get ⟨cl.length - 1, hklt⟩ := ((hmemcl _).1 hvmem).2
        show (if _ = -1 then _ else _) = _
        rw [if_neg (by omega)]
        exact idxOf_get hnd _ hklt
      rw [heq2] at hm
      exact hm
    rw [maxList_eq_of_mem_of_le h1 h2]
    omega

theorem sentinel_after_relabel (labels : List Int) (hne : labels ≠ [])
    (hdom : ∀ v ∈ labels, v = -1 ∨ 0 ≤ v) :
    (∀ i, ∀ hi : i < labels.length, labels[i] = -1 →
      (relabel_clusters labels).1.getD i 0 = (relabel_clusters labels).2.2) ∧
    ((-1 : Int) ∈ labels →
      (relabel_clusters labels).2.2 = maxList (relabel_clusters labels).1) ∧
    ((-1 : Int) ∉ labels →
      (relabel_clusters labels).2.2 = maxList (relabel_clusters labels).1 + 1) := by
  have hmemcl : ∀ x : Int,
      x ∈ List.insertionSort (· ≤ ·) ((npUnique labels).filter fun c => decide (0 ≤ c)) ↔
        x ∈ labels ∧ 0 ≤ x := by
    intro x
    rw [mem_clusters]
    constructor
    · rintro ⟨h1, h2⟩; exact ⟨h1, of_decide_eq_true h2⟩
    · rintro ⟨h1, h2⟩; exact ⟨h1, decide_eq_true h2⟩
  have hcore := relabel_out_core labels
    (List.insertionSort (· ≤ ·) ((npUnique labels).filter fun c => decide (0 ≤ c)))
    (clusters_nodup labels _) hmemcl hdom
  refine ⟨?_, ?_, ?_⟩
  · intro i hi hneg
    have hlen : i < ((relabel_clusters labels).1).length := by
      simpa [relabel_clusters] using hi
    rw [List.getD_eq_getElem _ _ hlen]
    show (labels.map _)[i] = _
    rw [List.getElem_map, hneg]
    rfl
  · intro hmem
    exact (hcore.1 hmem).symm
  · intro hnmem
    exact (hcore.2 hne hnmem).symm

/-- Witness for C7 (amended) at the concrete raw labels `[-1, 0]`: one noise
point exists, so the recorded sentinel equals the buffer maximum. -/
theorem sentinel_after_relabel_witness :
    (relabel_clusters [-1, 0]).2.2 = maxList (relabel_clusters [-1, 0]).1 :=
  (sentinel_after_relabel [-1, 0] (by decide) (by decide)).2.1 (by decide)

/-! ### 09_cluster_2d.py : re-indexing labels to packed id order -/

/-- Worker for the dict comprehension
`id2idx = {int(i): idx for idx, i in enumerate(umap_ids_i)}`: scan with a
running index, a later occurrence of the same id overriding the accumulator. -/
def id2idxGo (pid : Int) : List Int → Nat → Option Nat → Option Nat
  | [], _, acc => acc
  | x :: xs, k, acc => id2idxGo pid xs (k + 1) (if x = pid then some k else acc)

/-- `id2idx.get(int(pid))`: the index of the last occurrence of `pid` in the
umap id order, `none` when absent. -/
def id2idx (umap_ids : List Int) (pid : Int) : Option Nat := id2idxGo pid umap_ids 0 none

/-- `align_labels_to_packed_ids` from `scripts/09_cluster_2d.py`: re-index the
umap-order uint16 labels to the packed id order; ids missing from the umap
order receive `np.uint16(noise_bucket)` (hence the mod 2^16 of the explicit
cast).  Returns `(labels_u16_packed_order, n_packed)`. -/
def align_labels_to_packed_ids (umap_ids : List Int) (labels_u16 : List Nat)
    (packed_ids : List Int) (noise_bucket : Nat) : List Nat × Nat :=
  (packed_ids.map (fun pid =>
    match id2idx umap_ids pid with
    | none => noise_bucket % 65536
    | some idx => labels_u16.getD idx 0),
   packed_ids.length)

theorem id2idxGo_not_mem (pid : Int) : ∀ (l : List Int) (k : Nat) (acc : Option Nat),
    pid ∉ l → id2idxGo pid l k acc = acc := by
  intro l
  induction l with
  | nil => intro k acc _; rfl
  | cons x xs ih =>
    intro k acc hm
    rw [id2idxGo, if_neg (fun h => hm (by rw [← h]; exact List.mem_cons_self x xs))]
    exact ih (k + 1) acc (fun h => hm (List.mem_cons_of_mem _ h))

theorem id2idxGo_mem (pid : Int) : ∀ (l : List Int) (k : Nat) (acc : Option Nat),
    pid ∈ l → ∃ i, ∃ hi : i < l.length, l.get ⟨i, hi⟩ = pid ∧
      id2idxGo pid l k acc = some (k + i) := by
  intro l
  induction l with
  | nil => intro k acc h; simp at h
  | cons x xs ih =>
    intro k acc hm
    by_cases hxs : pid ∈ xs
    · obtain ⟨i, hi, hget, heq⟩ := ih (k + 1) (if x = pid then some k else acc) hxs
      refine ⟨i + 1, by simpa using Nat.succ_lt_succ hi, by simpa using hget, ?_⟩
      rw [id2idxGo, heq]
      congr 1
      omega
    · have hx : x = pid := by
        rcases List.mem_cons.1 hm with h | h
        · exact h.symm
        · exact absurd h hxs
      refine ⟨0, by simp, by simpa using hx, ?_⟩
      rw [id2idxGo, if_pos hx, id2idxGo_not_mem pid xs (k + 1) (some k) hxs]
      congr 1

theorem id2idx_eq_none {umap_ids : List Int} {pid : Int} (h : pid ∉ umap_ids) :
    id2idx umap_ids pid = none :=
  id2idxGo_not_mem pid umap_ids 0 none h

theorem id2idx_eq_some {umap_ids : List Int} {pid : Int} (h : pid ∈ umap_ids) :
    ∃ i, ∃ hi : i < umap_ids.length, umap_ids.get ⟨i, hi⟩ = pid ∧
      id2idx umap_ids pid = some i := by
  obtain ⟨i, hi, hget, heq⟩ := id2idxGo_mem pid umap_ids 0 none h
  exact ⟨i, hi, hget, by simpa using heq⟩

/-- Claim C2: re-indexing umap-order labels to packed order never drops an
entry: the output has exactly the packed order's length, a packed id present
in the umap order gets that source label, and a packed id absent from the
umap order gets the noise sentinel. -/
theorem align_labels_spec (umap_ids : List Int) (labels : List Nat) (packed_ids : List Int)
    (noise_bucket : Nat) (hlen : labels.length = umap_ids.length)
    (hnb : noise_bucket < 65536) :
    (align_labels_to_packed_ids umap_ids labels packed_ids noise_bucket).1.length =
      packed_ids.length ∧
    (align_labels_to_packed_ids umap_ids labels packed_ids noise_bucket).2 =
      packed_ids.length ∧
    ∀ j, ∀ hj : j < packed_ids.length,
      (packed_ids[j] ∉ umap_ids →
        (align_labels_to_packed_ids umap_ids labels packed_ids noise_bucket).1.getD j 0 =
          noise_bucket) ∧
      (packed_ids[j] ∈ umap_ids →
        ∃ i, ∃ hi : i < umap_ids.length, umap_ids[i] = packed_ids[j] ∧
          (align_labels_to_packed_ids umap_ids labels packed_ids noise_bucket).1.getD j 0 =
            labels.getD i 0) := by
  refine ⟨by simp [align_labels_to_packed_ids], rfl, ?_⟩
  intro j hj
  have hlenout : j <
      ((align_labels_to_packed_ids umap_ids labels packed_ids noise_bucket).1).length := by
    simpa [align_labels_to_packed_ids] using hj
  constructor
  · intro habs
    rw [List.getD_eq_getElem _ _ hlenout]
    show (packed_ids.map _)[j] = _
    rw [List.getElem_map, id2idx_eq_none habs]
    exact Nat.mod_eq_of_lt hnb
  · intro hpres
    obtain ⟨i, hi, hget, heq⟩ := id2idx_eq_some hpres
    refine ⟨i, hi, hget, ?_⟩
    rw [List.getD_eq_getElem _ _ hlenout]
    show (packed_ids.map _)[j] = _
    rw [List.getElem_map, heq]

/-- Witness for C2 at concrete inputs: umap ids `[10, 20]` with labels
`[3, 4]`, packed ids `[20, 30]`, sentinel 7 — the aligned buffer keeps both
packed rows. -/
theorem align_labels_spec_witness :
    (align_labels_to_packed_ids [10, 20] [3, 4] [20, 30] 7).1.length =
      ([(20 : Int), 30] : List Int).length :=
  (align_labels_spec [10, 20] [3, 4] [20, 30] 7 (by decide) (by decide)).1

/-! ### 10_cluster_embed.py / 05_umap.py : fatal shape and uniqueness checks -/

/-- `load_from_npy` from `scripts/10_cluster_embed.py`: the embedding matrix
and id vector are loaded together; the rank checks are inherent in the list
types, and a row-count mismatch raises `ValueError` before anything is
returned (message formatted as in the f-string). -/
def load_from_npy {α : Type} (embs : List (List α)) (ids : List Int) :
    Except String (List Int × List (List α)) :=
  if embs.length ≠ ids.length then
    Except.error ("length mismatch: embs=" ++ toString embs.length ++
      " ids=" ++ toString ids.length)
  else Except.ok (ids, embs)

/-- The id-vector length check of `main` in `scripts/05_umap.py` (lines
186–191): `ids_mm.shape[0] != n_records` raises `ValueError` before any
output is produced. -/
def umap_check_ids (n_records : Nat) (ids : List Int) : Except String (List Int) :=
  if ids.length ≠ n_records then
    Except.error ("ids length mismatch: ids=" ++ toString ids.length ++
      " vs n_records=" ++ toString n_records)
  else Except.ok ids

/-- The id-uniqueness gate of `main` in `scripts/05_umap.py` (lines 229–241):
`np.unique(ids).size != n_total` raises `ValueError` reporting the duplicate
count, before the projection parquet is written; on success the parquet id
column is exactly the input id vector. -/
def umap_unique_gate (ids : List Int) : Except String (List Int) :=
  if (npUnique ids).length ≠ ids.length then
    Except.error ("ID is not unique: duplicates=" ++
      toString (ids.length - (npUnique ids).length))
  else Except.ok ids

theorem npUnique_length_eq_iff (ids : List Int) :
    (npUnique ids).length = ids.length ↔ ids.Nodup := by
  have hlen : (npUnique ids).length = ids.dedup.length :=
    (List.perm_insertionSort _ _).length_eq
  rw [hlen]
  constructor
  · intro h
    have heq : ids.dedup = ids := (List.dedup_sublist ids).eq_of_length h
    rw [← heq]
    exact List.nodup_dedup ids
  · intro h
    rw [List.dedup_eq_self.2 h]

/-- Claim C8: a length mismatch between the id vector and the embedding
matrix is fatal: both checking stages succeed exactly when the lengths agree,
and on success return the arrays unchanged — no silent truncation. -/
theorem length_mismatch_fatal {α : Type} (embs : List (List α)) (ids : List Int)
    (n_records : Nat) :
    ((∃ p, load_from_npy embs ids = Except.ok p) ↔ embs.length = ids.length) ∧
    (∀ p, load_from_npy embs ids = Except.ok p → p = (ids, embs)) ∧
    ((∃ l, umap_check_ids n_records ids = Except.ok l) ↔ ids.length = n_records) ∧
    (∀ l, umap_check_ids n_records ids = Except.ok l → l = ids) := by
  refine ⟨?_, ?_, ?_, ?_⟩
  · rw [load_from_npy]
    by_cases h : embs.length = ids.length
    · rw [if_neg (fun hc => hc h)]
      exact ⟨fun _ => h, fun _ => ⟨(ids, embs), rfl⟩⟩
    · rw [if_pos h]
      exact ⟨fun ⟨p, hp⟩ => absurd hp (by simp), fun hc => absurd hc h⟩
  · intro p hp
    rw [load_from_npy] at hp
    by_cases h : embs.length = ids.length
    · rw [if_neg (fun hc => hc h)] at hp
      exact (Except.ok.inj hp).symm
    · rw [if_pos h] at hp
      exact absurd hp (by simp)
  · rw [umap_check_ids]
    by_cases h : ids.length = n_records
    · rw [if_neg (fun hc => hc h)]
      exact ⟨fun _ => h, fun _ => ⟨ids, rfl⟩⟩
    · rw [if_pos h]
      exact ⟨fun ⟨l, hl⟩ => absurd hl (by simp), fun hc => absurd hc h⟩
  · intro l hl
    rw [umap_check_ids] at hl
    by_cases h : ids.length = n_records
    · rw [if_neg (fun hc => hc h)] at hl
      exact (Except.ok.inj hl).symm
    · rw [if_pos h] at hl
      exact absurd hl (by simp)

/-- Witness for C8 at a matched pair (one 1-entry row, one id) and at a
mismatched pair (one row, no id). -/
theorem length_mismatch_fatal_witness :
    (∃ p, load_from_npy [[(0 : Nat)]] [(5 : Int)] = Except.ok p) ∧
    ¬(∃ p, load_from_npy [[(0 : Nat)]] ([] : List Int) = Except.ok p) :=
  ⟨(length_mismatch_fatal [[(0 : Nat)]] [(5 : Int)] 1).1.mpr (by decide),
   fun hex => by
    have := (length_mismatch_fatal [[(0 : Nat)]] ([] : List Int) 0).1.mp hex
    simp at this⟩

/-- Claim C10: the projection stage rejects duplicate ids: the gate succeeds
exactly on duplicate-free id vectors, reports the duplicate count on failure,
and the id column it releases for writing is the unchanged, pairwise-distinct
id vector. -/
theorem unique_gate_spec (ids : List Int) :
    ((∃ l, umap_unique_gate ids = Except.ok l) ↔ ids.Nodup) ∧
    (¬ids.Nodup → umap_unique_gate ids = Except.error ("ID is not unique: duplicates=" ++
      toString (ids.length - (npUnique ids).length))) ∧
    (∀ l, umap_unique_gate ids = Except.ok l → l = ids ∧ l.Nodup) := by
  by_cases h : (npUnique ids).length = ids.length
  · have hnd : ids.Nodup := (npUnique_length_eq_iff ids).1 h
    have hgate : umap_unique_gate ids = Except.ok ids := by
      rw [umap_unique_gate, if_neg (fun hc => hc h)]
    refine ⟨⟨fun _ => hnd, fun _ => ⟨ids, hgate⟩⟩, fun hc => absurd hnd hc, ?_⟩
    intro l hl
    rw [hgate] at hl
    have : ids = l := Except.ok.inj hl
    exact ⟨this.symm, this ▸ hnd⟩
  · have hnd : ¬ids.Nodup := fun hc => h ((npUnique_length_eq_iff ids).2 hc)
    have hgate : umap_unique_gate ids = Except.error ("ID is not unique: duplicates=" ++
        toString (ids.length - (npUnique ids).length)) := by
      rw [umap_unique_gate, if_pos h]
    refine ⟨⟨fun ⟨l, hl⟩ => ?_, fun hc => absurd hc hnd⟩, fun _ => hgate, ?_⟩
    · rw [hgate] at hl
      exact absurd hl (by simp)
    · intro l hl
      rw [hgate] at hl
      exact absurd hl (by simp)

/-- Witness for C10: the duplicated id vector `[4, 4]` is rejected with the
duplicate count 1, and `[4, 7]` passes through unchanged. -/
theorem unique_gate_spec_witness :
    umap_unique_gate [4, 4] = Except.error "ID is not unique: duplicates=1" ∧
    ([(4 : Int), 7] = [(4 : Int), 7] ∧ ([(4 : Int), 7] : List Int).Nodup) :=
  ⟨by
    have := (unique_gate_spec [4, 4]).2.1 (by decide)
    simpa using this,
   (unique_gate_spec [4, 7]).2.2 [4, 7] rfl⟩

/-! ### 05_umap.py : subsample-fit index selection -/

/-- The fit-row selection of `fit_transform_subsampled` in
`scripts/05_umap.py` (lines 132–142):
`rng = np.random.default_rng(args.seed)`,
`fit_indices = rng.choice(n_total, size=n_fit, replace=False)`,
`fit_indices.sort()`.  The library generator is modelled as an explicit
deterministic function `choice` of exactly the data the code passes it:
the seed, the population size and the sample size. -/
def fit_indices (choice : Nat → Nat → Nat → List Nat) (seed n_total n_fit : Nat) : List Nat :=
  List.insertionSort (· ≤ ·) (choice seed n_total n_fit)

/-- The subsample-fit stage's selection step: from the full embedding list it
derives only `n_total = len(emb2d_input)` for the draw, and gathers the fit
rows `emb2d_input[fit_indices]`. -/
def fit_transform_subsampled {ε : Type} (choice : Nat → Nat → Nat → List Nat)
    (seed n_fit : Nat) (emb : List ε) : List Nat × List ε :=
  let idxs := fit_indices choice seed emb.length n_fit
  (idxs, idxs.filterMap (fun i => emb[i]?))

/-- Claim C9: the subsample-fit row selection is a function only of the seed,
the row count and `n_fit`: two runs over embeddings of equal length (of any
element types) select identical index lists; the selection is sorted
ascending, is a permutation of the library draw, and remains
duplicate-free whenever the draw (without replacement) is. -/
theorem subsample_selection_spec {ε ε' : Type} (choice : Nat → Nat → Nat → List Nat)
    (seed n_fit : Nat) (emb : List ε) (emb2 : List ε') :
    (emb.length = emb2.length →
      (fit_transform_subsampled choice seed n_fit emb).1 =
        (fit_transform_subsampled choice seed n_fit emb2).1) ∧
    List.Sorted (· ≤ ·) (fit_indices choice seed emb.length n_fit) ∧
    List.Perm (fit_indices choice seed emb.length n_fit) (choice seed emb.length n_fit) ∧
    ((choice seed emb.length n_fit).Nodup →
      (fit_indices choice seed emb.length n_fit).Nodup) := by
  refine ⟨?_, ?_, ?_, ?_⟩
  · intro h
    show fit_indices choice seed emb.length n_fit = fit_indices choice seed emb2.length n_fit
    rw [h]
  · exact List.sorted_insertionSort _ _
  · exact List.perm_insertionSort _ _
  · intro h
    exact ((List.perm_insertionSort _ _).nodup_iff).2 h

/-- Witness for C9: with a concrete library draw `[2, 0, 1]`, the selection
over a `Nat`-valued and a `Bool`-valued embedding of equal length 3 coincide,
and duplicate-freeness of the draw carries over. -/
theorem subsample_selection_spec_witness :
    (fit_transform_subsampled (fun _ _ _ => [2, 0, 1]) 42 3 [10, 20, 30]).1 =
      (fit_transform_subsampled (fun _ _ _ => [2, 0, 1]) 42 3 [true, true, false]).1 ∧
    (fit_indices (fun _ _ _ => [2, 0, 1]) 42 ([10, 20, 30] : List Nat).length 3).Nodup :=
  ⟨(subsample_selection_spec (fun _ _ _ => [2, 0, 1]) 42 3 [10, 20, 30]
      [true, true, false]).1 (by decide),
   (subsample_selection_spec (fun _ _ _ => [2, 0, 1]) 42 3 [10, 20, 30]
      [true, true, false]).2.2.2 (by decide)⟩

/-! ### 14_make_search_index.py : per-shard posting serialization -/

/-- `sorted(set(arr))`: ascending, duplicate-free. -/
def sortedDedup (l : List Nat) : List Nat := List.insertionSort (· ≤ ·) l.dedup

/-- The serialization loop body of `main` in `scripts/14_make_search_index.py`
(lines 95–101), walking the key list with the running `offset`: each posting
list is dedup+sorted, its `[offset, count]` recorded, and its entries appended
to the flat array. -/
def buildShardAux : List (Nat × List Nat) → Nat → List (Nat × Nat × Nat) × List Nat
  | [], _ => ([], [])
  | (h, arr) :: rest, offset =>
    ((h, offset, (sortedDedup arr).length) ::
        (buildShardAux rest (offset + (sortedDedup arr).length)).1,
      sortedDedup arr ++ (buildShardAux rest (offset + (sortedDedup arr).length)).2)

/-- Serialization of one index shard (lines 87–112 of
`scripts/14_make_search_index.py`): the dict `postings_shards[shard]` is
walked in ascending key order (`keys = sorted(...)`), producing the vocab
`hash ↦ (offset, count)` and the flat posting array. -/
def buildShard (shard : List (Nat × List Nat)) : List (Nat × Nat × Nat) × List Nat :=
  buildShardAux
    ((List.insertionSort (· ≤ ·) (shard.map Prod.fst)).map
      (fun h => (h, (lookupId h shard).getD [])))
    0

/-- The `[offset, count]` entries tile an array of the given total length:
the first offset is the running position, each next offset is the previous
offset plus the previous count, and the final position is the total length —
no gaps, no overlaps. -/
def offsetsTile : List (Nat × Nat × Nat) → Nat → Nat → Prop
  | [], off, total => off = total
  | e :: rest, off, total => e.2.1 = off ∧ offsetsTile rest (off + e.2.2) total

theorem buildShardAux_keys : ∀ (es : List (Nat × List Nat)) (off : Nat),
    (buildShardAux es off).1.map (fun e => e.1) = es.map Prod.fst := by
  intro es
  induction es with
  | nil => intro off; rfl
  | cons p rest ih =>
    intro off
    obtain ⟨h, arr⟩ := p
    simp only [buildShardAux, List.map_cons]
    rw [ih]

theorem buildShardAux_tile : ∀ (es : List (Nat × List Nat)) (off : Nat),
    offsetsTile (buildShardAux es off).1 off (off + (buildShardAux es off).2.length) := by
  intro es
  induction es with
  | nil => intro off; simp [buildShardAux, offsetsTile]
  | cons p rest ih =>
    intro off
    obtain ⟨h, arr⟩ := p
    simp only [buildShardAux, offsetsTile, List.length_append]
    refine ⟨trivial, ?_⟩
    rw [show off + ((sortedDedup arr).length +
        ((buildShardAux rest (off + (sortedDedup arr).length)).2).length) =
        (off + (sortedDedup arr).length) +
          ((buildShardAux rest (off + (sortedDedup arr).length)).2).length from by omega]
    exact ih (off + (sortedDedup arr).length)

theorem buildShardAux_slices : ∀ (es : List (Nat × List Nat)) (off : Nat),
    ∀ e ∈ (buildShardAux es off).1,
      off ≤ e.2.1 ∧ ∃ arr, (e.1, arr) ∈ es ∧
        (((buildShardAux es off).2).drop (e.2.1 - off)).take e.2.2 = sortedDedup arr ∧
        e.2.2 = (sortedDedup arr).length := by
  intro es
  induction es with
  | nil => intro off e he; simp [buildShardAux] at he
  | cons p rest ih =>
    intro off e he
    obtain ⟨h, arr⟩ := p
    simp only [buildShardAux] at he ⊢
    rcases List.mem_cons.1 he with he | he
    · subst he
      refine ⟨Nat.le_refl _, arr, List.mem_cons_self _ _, ?_, rfl⟩
      show ((sortedDedup arr ++ _).drop (off - off)).take (sortedDedup arr).length = _
      rw [Nat.sub_self, List.drop_zero, List.take_left]
    · obtain ⟨hge, arr', hmem, hslice, hcnt⟩ := ih (off + (sortedDedup arr).length) e he
      refine ⟨by omega, arr', List.mem_cons_of_mem _ hmem, ?_, hcnt⟩
      rw [show e.2.1 - off =
          (sortedDedup arr).length + (e.2.1 - (off + (sortedDedup arr).length)) from by omega,
        List.drop_append]
      exact hslice

/-- Claim C6: a serialized index shard is the concatenation, in ascending hash
order, of the sorted-ascending deduplicated posting lists, with a vocabulary
entry `(hash, offset, count)` per hash whose slice of the flat array is
exactly that hash's dedup-sorted posting list, and whose offsets tile the
flat array without gaps or overlaps. -/
theorem shard_serialization_spec (shard : List (Nat × List Nat))
    (hnd : (shard.map Prod.fst).Nodup) :
    (∀ k : Nat, k ∈ (buildShard shard).1.map (fun e => e.1) ↔ k ∈ shard.map Prod.fst) ∧
    List.Sorted (· < ·) ((buildShard shard).1.map (fun e => e.1)) ∧
    (∀ e ∈ (buildShard shard).1,
      (((buildShard shard).2).drop e.2.1).take e.2.2 =
        sortedDedup ((lookupId e.1 shard).getD []) ∧
      e.2.2 = (sortedDedup ((lookupId e.1 shard).getD [])).length) ∧
    offsetsTile (buildShard shard).1 0 (buildShard shard).2.length := by
  have hkeys : (buildShard shard).1.map (fun e => e.1) =
      List.insertionSort (· ≤ ·) (shard.map Prod.fst) := by
    rw [buildShard, buildShardAux_keys, List.map_map]
    have hcomp : (Prod.fst ∘ fun h : Nat => (h, (lookupId h shard).getD ([] : List Nat))) = id :=
      rfl
    rw [hcomp, List.map_id]
  refine ⟨?_, ?_, ?_, ?_⟩
  · intro k
    rw [hkeys, List.mem_insertionSort]
  · rw [hkeys]
    have hsorted : List.Sorted (· ≤ ·)
        (List.insertionSort (· ≤ ·) (shard.map Prod.fst)) :=
      List.sorted_insertionSort _ _
    have hnd' : (List.insertionSort (· ≤ ·) (shard.map Prod.fst)).Nodup :=
      ((List.perm_insertionSort _ _).nodup_iff).2 hnd
    exact hsorted.lt_of_le hnd'
  · intro e he
    obtain ⟨h0, arr, hmem, hslice, hcnt⟩ := buildShardAux_slices _ 0 e he
    obtain ⟨h, _, hpair⟩ := List.mem_map.1 hmem
    have harr : arr = (lookupId e.1 shard).getD [] := by
      have h1 : h = e.1 := congrArg Prod.fst hpair
      have h2 : (lookupId h shard).getD [] = arr := congrArg Prod.snd hpair
      rw [← h2, h1]
    rw [Nat.sub_zero] at hslice
    exact ⟨by rw [← harr]; exact hslice, by rw [← harr]; exact hcnt⟩
  · have := buildShardAux_tile
      ((List.insertionSort (· ≤ ·) (shard.map Prod.fst)).map
        (fun h => (h, (lookupId h shard).getD []))) 0
    rw [Nat.zero_add] at this
    exact this

/-- Witness for C6 at the concrete shard `{5 ↦ [3, 1, 3], 2 ↦ [7]}` (distinct
hash keys): its vocabulary offsets tile the flat array. -/
theorem shard_serialization_spec_witness :
    offsetsTile (buildShard [(5, [3, 1, 3]), (2, [7])]).1 0
      (buildShard [(5, [3, 1, 3]), (2, [7])]).2.length :=
  (shard_serialization_spec [(5, [3, 1, 3]), (2, [7])] (by decide)).2.2.2

end GV
